import Mathlib

/-!
Verification of the webhook-hub relay (Vercel / Hugging Face → Discord).

The development shallowly embeds the JavaScript sources:
  - `src/utils/verifySignature.js` (HMAC signature verification, Node
    `crypto` semantics: hex decoding that stops at the first invalid
    character, `timingSafeEqual` that throws on length mismatch),
  - `src/services/discord.js` (embed builders and the Discord sender),
  - `src/routes/vercel.js` and `src/routes/hf.js` (the two routers).

JavaScript values are modelled by `Json`; JS property access, truthiness,
template interpolation and the partiality of method calls on non-string
values are modelled explicitly (a thrown `TypeError` becomes
`Except.error`).  The wall clock (`Date.now()` / `new Date().toISOString()`)
is passed in as a `Clock` value.
-/

/-- Model of a JavaScript/JSON value.  Numbers are modelled as `Int`
(no claim depends on non-integral numeric payload values). -/
inductive Json where
  | null : Json
  | bool : Bool → Json
  | num : Int → Json
  | str : String → Json
  | arr : List Json → Json
  | obj : List (String × Json) → Json

namespace Json

/-- Lookup of a key in an object's field list (first match wins). -/
def lookup (k : String) : List (String × Json) → Option Json
  | [] => none
  | (k', v) :: rest => if k' = k then some v else lookup k rest

end Json

/-- JS truthiness of a possibly-undefined value (`none` = `undefined`).
`undefined`, `null`, `false`, `0` and `""` are falsy; objects and arrays
(also empty ones) are truthy. -/
def truthy : Option Json → Bool
  | none => false
  | some Json.null => false
  | some (Json.bool b) => b
  | some (Json.num n) => n != 0
  | some (Json.str s) => s != ""
  | some (Json.arr _) => true
  | some (Json.obj _) => true

/-- JS `a || b` on possibly-undefined values. -/
def jsOr (a b : Option Json) : Option Json :=
  if truthy a then a else b

/-- JS strict equality `v === "s"` against a string literal. -/
def isStr (v : Option Json) (s : String) : Bool :=
  match v with
  | some (Json.str t) => t == s
  | _ => false

/-- JS strict equality `v === null` (`undefined === null` is false). -/
def isNullVal (v : Option Json) : Bool :=
  match v with
  | some Json.null => true
  | _ => false

/-- Plain property access `v.k`.  Throws a `TypeError` when the receiver is
`undefined` or `null`; on any other non-object value the property is absent
(`undefined`); built-in properties such as `.length` are modelled separately
at their use sites. -/
def jsGet (v : Option Json) (k : String) : Except String (Option Json) :=
  match v with
  | none => Except.error ("TypeError: cannot read properties of undefined (reading " ++ k ++ ")")
  | some Json.null => Except.error ("TypeError: cannot read properties of null (reading " ++ k ++ ")")
  | some (Json.obj kvs) => Except.ok (Json.lookup k kvs)
  | some _ => Except.ok none

/-- Optional-chained property access `v?.k`: `undefined`/`null` receivers
yield `undefined` instead of throwing. -/
def jsChain (v : Option Json) (k : String) : Option Json :=
  match v with
  | none => none
  | some Json.null => none
  | some (Json.obj kvs) => Json.lookup k kvs
  | some _ => none

/-- JS array indexing `a[i]` for an already-evaluated array value
(out of range yields `undefined`). -/
def jsIndex (v : Option Json) (i : Nat) : Option Json :=
  match v with
  | some (Json.arr xs) => xs.get? i
  | _ => none

mutual

/-- String conversion of a JS value as performed by template interpolation. -/
def jsToStrJ : Json → String
  | Json.null => "null"
  | Json.bool b => if b then "true" else "false"
  | Json.num n => toString n
  | Json.str s => s
  | Json.arr xs => jsToStrList xs
  | Json.obj _ => "[object Object]"

/-- Array stringification: elements joined by `,`; a `null` element
prints empty. -/
def jsToStrList : List Json → String
  | [] => ""
  | [Json.null] => ""
  | [x] => jsToStrJ x
  | Json.null :: y :: xs => "," ++ jsToStrList (y :: xs)
  | x :: y :: xs => jsToStrJ x ++ "," ++ jsToStrList (y :: xs)

end

/-- String conversion `${v}` of a possibly-undefined value. -/
def jsToStr : Option Json → String
  | none => "undefined"
  | some j => jsToStrJ j

mutual

/-- JSON serialisation (`JSON.stringify`, no whitespace).  Only used by the
signature middleware as a fallback body; claims do not depend on escaping
corner cases beyond quotes and backslashes. -/
def jsonStringify : Json → String
  | Json.null => "null"
  | Json.bool b => if b then "true" else "false"
  | Json.num n => toString n
  | Json.str s => "\"" ++ String.join (s.toList.map (fun c =>
      if c = '"' then "\\\"" else if c = '\\' then "\\\\" else String.singleton c)) ++ "\""
  | Json.arr xs => "[" ++ jsonStringifyList xs ++ "]"
  | Json.obj kvs => "\x7b" ++ jsonStringifyKVs kvs ++ "\x7d"

/-- Serialisation of an array's elements, comma separated. -/
def jsonStringifyList : List Json → String
  | [] => ""
  | [x] => jsonStringify x
  | x :: y :: xs => jsonStringify x ++ "," ++ jsonStringifyList (y :: xs)

/-- Serialisation of an object's key/value pairs, comma separated. -/
def jsonStringifyKVs : List (String × Json) → String
  | [] => ""
  | [(k, v)] => "\"" ++ k ++ "\":" ++ jsonStringify v
  | (k, v) :: y :: xs => "\"" ++ k ++ "\":" ++ jsonStringify v ++ "," ++ jsonStringifyKVs (y :: xs)

end

/-- JS `String.prototype.replace` with a plain-string pattern: replaces the
first occurrence only (Lean's `String.replace` would replace all). -/
def jsReplaceAux (pat repl : List Char) : List Char → List Char
  | [] => []
  | c :: cs =>
    if pat.isPrefixOf (c :: cs) then repl ++ (c :: cs).drop pat.length
    else c :: jsReplaceAux pat repl cs

/-- String form of `jsReplaceAux`. -/
def jsReplace (s pat repl : String) : String :=
  ⟨jsReplaceAux pat.toList repl.toList s.toList⟩

/-- Capitalisation idiom `s.charAt(0).toUpperCase() + s.slice(1)` used by
the Hugging Face route handlers. -/
def jsUcFirst (s : String) : String :=
  match s.toList with
  | [] => ""
  | c :: cs => ⟨c.toUpper :: cs⟩

/-! ### Node `crypto` model: SHA-1, SHA-256, HMAC, hex, `timingSafeEqual` -/

/-- Truncation to 32 bits. -/
def m32 (x : Nat) : Nat := x % 4294967296

/-- 32-bit bitwise complement (for values below `2^32`). -/
def not32 (x : Nat) : Nat := x ^^^ 4294967295

/-- 32-bit rotate right. -/
def rotr32 (x n : Nat) : Nat := m32 ((x >>> n) ||| (x <<< (32 - n)))

/-- 32-bit rotate left. -/
def rotl32 (x n : Nat) : Nat := m32 ((x <<< n) ||| (x >>> (32 - n)))

/-- Big-endian 32-bit words from a byte list (groups of four). -/
def beWords : List Nat → List Nat
  | b0 :: b1 :: b2 :: b3 :: rest =>
    (b0 * 16777216 + b1 * 65536 + b2 * 256 + b3) :: beWords rest
  | _ => []

/-- Big-endian 8-byte encoding of a (bit-length) number. -/
def be8Bytes (n : Nat) : List Nat :=
  [n / 72057594037927936 % 256, n / 281474976710656 % 256,
   n / 1099511627776 % 256, n / 4294967296 % 256,
   n / 16777216 % 256, n / 65536 % 256, n / 256 % 256, n % 256]

/-- Big-endian 4-byte encoding of a 32-bit word. -/
def be4Bytes (w : Nat) : List Nat :=
  [w / 16777216 % 256, w / 65536 % 256, w / 256 % 256, w % 256]

/-- Merkle–Damgård padding shared by SHA-1 and SHA-256: append `0x80`,
zero bytes to 56 mod 64, then the 64-bit big-endian bit length. -/
def sha2Pad (msg : List Nat) : List Nat :=
  msg ++ 128 :: List.replicate ((119 - msg.length % 64) % 64) 0 ++ be8Bytes (8 * msg.length)

/-- Split a byte list into 64-byte blocks (structural fuel recursion: the
fuel `l.length` always suffices since each step consumes 64 bytes). -/
def chunks64Aux : Nat → List Nat → List (List Nat)
  | 0, _ => []
  | _, [] => []
  | fuel + 1, l => l.take 64 :: chunks64Aux fuel (l.drop 64)

/-- Split a byte list into 64-byte blocks. -/
def chunks64 (l : List Nat) : List (List Nat) := chunks64Aux l.length l

/-- SHA-256 working registers. -/
structure Sha256Regs where
  ra : Nat
  rb : Nat
  rc : Nat
  rd : Nat
  re : Nat
  rf : Nat
  rg : Nat
  rh : Nat

/-- SHA-256 round constants. -/
def sha256K : List Nat :=
  [1116352408, 1899447441, 3049323471, 3921009573, 961987163,
   1508970993, 2453635748, 2870763221, 3624381080, 310598401,
   607225278, 1426881987, 1925078388, 2162078206, 2614888103,
   3248222580, 3835390401, 4022224774, 264347078, 604807628,
   770255983, 1249150122, 1555081692, 1996064986, 2554220882,
   2821834349, 2952996808, 3210313671, 3336571891, 3584528711,
   113926993, 338241895, 666307205, 773529912, 1294757372,
   1396182291, 1695183700, 1986661051, 2177026350, 2456956037,
   2730485921, 2820302411, 3259730800, 3345764771, 3516065817,
   3600352804, 4094571909, 275423344, 430227734, 506948616,
   659060556, 883997877, 958139571, 1322822218, 1537002063,
   1747873779, 1955562222, 2024104815, 2227730452, 2361852424,
   2428436474, 2756734187, 3204031479, 3329325298]

/-- SHA-256 initial state. -/
def sha256Init : Sha256Regs :=
  ⟨1779033703, 3144134277, 1013904242, 2773480762, 1359893119, 2600822924, 528734635, 1541459225⟩

/-- SHA-256 small sigma 0. -/
def ssig0 (x : Nat) : Nat := rotr32 x 7 ^^^ rotr32 x 18 ^^^ (x >>> 3)

/-- SHA-256 small sigma 1. -/
def ssig1 (x : Nat) : Nat := rotr32 x 17 ^^^ rotr32 x 19 ^^^ (x >>> 10)

/-- SHA-256 big sigma 0. -/
def bsig0 (x : Nat) : Nat := rotr32 x 2 ^^^ rotr32 x 13 ^^^ rotr32 x 22

/-- SHA-256 big sigma 1. -/
def bsig1 (x : Nat) : Nat := rotr32 x 6 ^^^ rotr32 x 11 ^^^ rotr32 x 25

/-- SHA-2 choice function. -/
def chFn (x y z : Nat) : Nat := (x &&& y) ^^^ (not32 x &&& z)

/-- SHA-2 majority function. -/
def majFn (x y z : Nat) : Nat := (x &&& y) ^^^ (x &&& z) ^^^ (y &&& z)

/-- Extend the message words towards 64 for SHA-256 (fuel recursion). -/
def sha256ExtendAux : Nat → List Nat → List Nat
  | 0, w => w
  | fuel + 1, w =>
    if w.length < 64 then
      let i := w.length
      sha256ExtendAux fuel (w ++ [m32 (ssig1 (w.getD (i - 2) 0) + w.getD (i - 7) 0 +
        ssig0 (w.getD (i - 15) 0) + w.getD (i - 16) 0)])
    else w

/-- Extend the 16 message words to 64 for SHA-256. -/
def sha256Extend (w : List Nat) : List Nat := sha256ExtendAux 64 w

/-- One SHA-256 round on the working registers. -/
def sha256Round (st : Sha256Regs) (kw : Nat × Nat) : Sha256Regs :=
  let t1 := m32 (st.rh + bsig1 st.re + chFn st.re st.rf st.rg + kw.1 + kw.2)
  let t2 := m32 (bsig0 st.ra + majFn st.ra st.rb st.rc)
  ⟨m32 (t1 + t2), st.ra, st.rb, st.rc, m32 (st.rd + t1), st.re, st.rf, st.rg⟩

/-- SHA-256 compression of one 64-byte block. -/
def sha256Compress (h : Sha256Regs) (block : List Nat) : Sha256Regs :=
  let w := sha256Extend (beWords block)
  let st := (sha256K.zip w).foldl sha256Round h
  ⟨m32 (h.ra + st.ra), m32 (h.rb + st.rb), m32 (h.rc + st.rc), m32 (h.rd + st.rd),
   m32 (h.re + st.re), m32 (h.rf + st.rf), m32 (h.rg + st.rg), m32 (h.rh + st.rh)⟩

/-- Serialise the eight SHA-256 registers as 32 big-endian bytes. -/
def sha256RegsBytes (r : Sha256Regs) : List Nat :=
  be4Bytes r.ra ++ be4Bytes r.rb ++ be4Bytes r.rc ++ be4Bytes r.rd ++
  be4Bytes r.re ++ be4Bytes r.rf ++ be4Bytes r.rg ++ be4Bytes r.rh

/-- SHA-256 of a byte list. -/
def sha256 (msg : List Nat) : List Nat :=
  sha256RegsBytes ((chunks64 (sha2Pad msg)).foldl sha256Compress sha256Init)

/-- SHA-1 working registers. -/
structure Sha1Regs where
  ra : Nat
  rb : Nat
  rc : Nat
  rd : Nat
  re : Nat

/-- SHA-1 initial state. -/
def sha1Init : Sha1Regs :=
  ⟨1732584193, 4023233417, 2562383102, 271733878, 3285377520⟩

/-- SHA-1 round function, varying with the round index. -/
def sha1F (t x y z : Nat) : Nat :=
  if t < 20 then (x &&& y) ||| (not32 x &&& z)
  else if t < 40 then x ^^^ y ^^^ z
  else if t < 60 then (x &&& y) ||| (x &&& z) ||| (y &&& z)
  else x ^^^ y ^^^ z

/-- SHA-1 round constant, varying with the round index. -/
def sha1KC (t : Nat) : Nat :=
  if t < 20 then 1518500249
  else if t < 40 then 1859775393
  else if t < 60 then 2400959708
  else 3395469782

/-- Extend the message words towards 80 for SHA-1 (fuel recursion). -/
def sha1ExtendAux : Nat → List Nat → List Nat
  | 0, w => w
  | fuel + 1, w =>
    if w.length < 80 then
      let i := w.length
      sha1ExtendAux fuel (w ++ [rotl32 (w.getD (i - 3) 0 ^^^ w.getD (i - 8) 0 ^^^
        w.getD (i - 14) 0 ^^^ w.getD (i - 16) 0) 1])
    else w

/-- Extend the 16 message words to 80 for SHA-1. -/
def sha1Extend (w : List Nat) : List Nat := sha1ExtendAux 80 w

/-- One SHA-1 round on the working registers. -/
def sha1Round (st : Sha1Regs) (tw : Nat × Nat) : Sha1Regs :=
  let tmp := m32 (rotl32 st.ra 5 + sha1F tw.1 st.rb st.rc st.rd + st.re + sha1KC tw.1 + tw.2)
  ⟨tmp, st.ra, rotl32 st.rb 30, st.rc, st.rd⟩

/-- SHA-1 compression of one 64-byte block. -/
def sha1Compress (h : Sha1Regs) (block : List Nat) : Sha1Regs :=
  let w := sha1Extend (beWords block)
  let st := ((List.range 80).zip w).foldl sha1Round h
  ⟨m32 (h.ra + st.ra), m32 (h.rb + st.rb), m32 (h.rc + st.rc), m32 (h.rd + st.rd), m32 (h.re + st.re)⟩

/-- Serialise the five SHA-1 registers as 20 big-endian bytes. -/
def sha1RegsBytes (r : Sha1Regs) : List Nat :=
  be4Bytes r.ra ++ be4Bytes r.rb ++ be4Bytes r.rc ++ be4Bytes r.rd ++ be4Bytes r.re

/-- SHA-1 of a byte list. -/
def sha1 (msg : List Nat) : List Nat :=
  sha1RegsBytes ((chunks64 (sha2Pad msg)).foldl sha1Compress sha1Init)

/-- UTF-8 encoding of a string (Node's `'utf8'` input encoding). -/
def utf8Bytes (s : String) : List Nat :=
  s.toList.bind (fun c =>
    let n := c.toNat
    if n < 128 then [n]
    else if n < 2048 then [192 + n / 64, 128 + n % 64]
    else if n < 65536 then [224 + n / 4096, 128 + n / 64 % 64, 128 + n % 64]
    else [240 + n / 262144, 128 + n / 4096 % 64, 128 + n / 64 % 64, 128 + n % 64])

/-- HMAC (RFC 2104) over a 64-byte-block hash function. -/
def hmacBytes (hash : List Nat → List Nat) (key msg : List Nat) : List Nat :=
  let k0 := if key.length > 64 then hash key else key
  let k := k0 ++ List.replicate (64 - k0.length) 0
  hash ((k.map (fun b => b ^^^ 92)) ++ hash ((k.map (fun b => b ^^^ 54)) ++ msg))

/-- Hash algorithms used by the webhook verifiers. -/
inductive HashAlg where
  | sha1
  | sha256

/-- The hash function named by an algorithm. -/
def hashBytes : HashAlg → List Nat → List Nat
  | HashAlg.sha1 => sha1
  | HashAlg.sha256 => sha256

/-- Digest length in bytes of each algorithm. -/
def digestByteLength : HashAlg → Nat
  | HashAlg.sha1 => 20
  | HashAlg.sha256 => 32

/-- Lower-case hex digit for a nibble. -/
def hexDigitChar (n : Nat) : Char :=
  if n < 10 then Char.ofNat (48 + n) else Char.ofNat (87 + n)

/-- Lower-case hex encoding of a byte list (Node `digest('hex')`). -/
def hexEncode (bs : List Nat) : String :=
  ⟨bs.foldr (fun b acc => hexDigitChar (b / 16 % 16) :: hexDigitChar (b % 16) :: acc) []⟩

/-- Value of a hex character; Node accepts both cases. -/
def hexCharVal (c : Char) : Option Nat :=
  if '0' ≤ c ∧ c ≤ '9' then some (c.toNat - 48)
  else if 'a' ≤ c ∧ c ≤ 'f' then some (c.toNat - 87)
  else if 'A' ≤ c ∧ c ≤ 'F' then some (c.toNat - 55)
  else none

/-- Node `Buffer.from(s, 'hex')`: decode complete leading byte pairs,
stopping at the first character that is not a hex digit (a trailing
half-byte is discarded). -/
def hexDecodeAux : List Char → List Nat
  | c1 :: c2 :: rest =>
    match hexCharVal c1, hexCharVal c2 with
    | some hi, some lo => (16 * hi + lo) :: hexDecodeAux rest
    | _, _ => []
  | _ => []

/-- String form of `hexDecodeAux`. -/
def hexDecode (s : String) : List Nat := hexDecodeAux s.toList

/-- The hex digest `crypto.createHmac(algorithm, secret).update(payload, 'utf8').digest('hex')`. -/
def hmacHexDigest (alg : HashAlg) (secret payload : String) : String :=
  hexEncode (hmacBytes (hashBytes alg) (utf8Bytes secret) (utf8Bytes payload))

/-- Node `crypto.timingSafeEqual`: throws a `RangeError` when the buffers
have different lengths, otherwise compares them. -/
def timingSafeEqual (a b : List Nat) : Except String Bool :=
  if a.length = b.length then Except.ok (a == b)
  else Except.error "RangeError: Input buffers must have the same byte length"

/-- JS truthiness of a possibly-undefined string (`undefined` and `""` falsy). -/
def strTruthy : Option String → Bool
  | none => false
  | some s => s != ""

/-- JS `s.startsWith(pre)` (character-list form, kernel-evaluable). -/
def jsStartsWith (s pre : String) : Bool :=
  pre.toList.isPrefixOf s.toList

/-- `verifyHmacSignature(payload, signature, secret, algorithm)` from
`src/utils/verifySignature.js`: false on falsy inputs, otherwise a
timing-safe comparison of the hex-decoded signature against the computed
digest, with the whole comparison wrapped in try/catch returning false. -/
def verifyHmacSignature (payload signature secret : Option String) (algorithm : HashAlg) : Bool :=
  if !strTruthy payload || !strTruthy signature || !strTruthy secret then false
  else
    let expectedSignature := hmacHexDigest algorithm (secret.getD "") (payload.getD "")
    match timingSafeEqual (hexDecode (signature.getD "")) (hexDecode expectedSignature) with
    | Except.ok b => b
    | Except.error _ => false

/-- `verifyVercelSignature` from `src/utils/verifySignature.js`:
requires the `sha1=` prefix, strips it, and delegates to
`verifyHmacSignature` with SHA-1. -/
def verifyVercelSignature (payload signature secret : Option String) : Bool :=
  if !strTruthy signature || !jsStartsWith (signature.getD "") "sha1=" then false
  else verifyHmacSignature payload (some (jsReplace (signature.getD "") "sha1=" "")) secret HashAlg.sha1

/-- `verifyGitHubSignature` from `src/utils/verifySignature.js`:
requires the `sha256=` prefix, strips it, and delegates to
`verifyHmacSignature` with SHA-256. -/
def verifyGitHubSignature (payload signature secret : Option String) : Bool :=
  if !strTruthy signature || !jsStartsWith (signature.getD "") "sha256=" then false
  else verifyHmacSignature payload (some (jsReplace (signature.getD "") "sha256=" "")) secret HashAlg.sha256


/-! ### Discord embed model (`src/services/discord.js`) -/

/-- The wall clock at formatting time: `Date.now()` milliseconds and the
`new Date().toISOString()` string. -/
structure Clock where
  ms : Nat
  iso : String

/-- One entry of an embed's `fields` array: `{ name, value, inline }`.
Names and inline flags are literals in the source; values may be any JS
value (e.g. a numeric `project.name`). -/
structure EmbedField where
  name : String
  value : Json
  inline : Bool

/-- An embed's `footer` object. -/
structure EmbedFooter where
  text : String
  icon_url : String

/-- A Discord embed object as built by the formatters. -/
structure Embed where
  title : String
  description : Option String
  color : Int
  url : Option Json
  timestamp : String
  thumbnail : Option String
  fields : List EmbedField
  footer : Option EmbedFooter

/-- JS `a || b` yielding a defined value (used where the source supplies a
literal fallback). -/
def jsValOr (a : Option Json) (b : Json) : Json :=
  (jsOr a (some b)).getD b

/-- JS `s.substring(0, n)` / `s.slice(0, n)` on a string (code points). -/
def stringTake (s : String) (n : Nat) : String :=
  ⟨s.toList.take n⟩

/-- Lower-casing for `type.toLowerCase()` (ASCII suffices here). -/
def stringToLower (s : String) : String :=
  ⟨s.toList.map Char.toLower⟩

/-- Join strings with a separator (`Array.prototype.join`). -/
def joinSep (sep : String) : List String → String
  | [] => ""
  | [x] => x
  | x :: y :: xs => x ++ sep ++ joinSep sep (y :: xs)

/-- JS `s.split(sep)` for a non-empty string separator (fuel recursion on
the character list; the fuel `length + 1` always suffices). -/
def jsSplitAux (sep : List Char) : Nat → List Char → List Char → List String
  | 0, _, cur => [⟨cur⟩]
  | _ + 1, [], cur => [⟨cur⟩]
  | fuel + 1, c :: cs, cur =>
    if sep.isPrefixOf (c :: cs) then
      ⟨cur⟩ :: jsSplitAux sep fuel ((c :: cs).drop sep.length) []
    else jsSplitAux sep fuel cs (cur ++ [c])

/-- String form of `jsSplitAux`. -/
def jsSplit (s sep : String) : List String :=
  jsSplitAux sep.toList (s.toList.length + 1) s.toList []

/-- Optional-chained `v?.split(sep)`: skipped on `undefined`/`null`,
a `TypeError` on any other non-string receiver. -/
def jsSplitChain (v : Option Json) (sep : String) : Except String (Option Json) :=
  match v with
  | none => Except.ok none
  | some Json.null => Except.ok none
  | some (Json.str s) => Except.ok (some (Json.arr ((jsSplit s sep).map Json.str)))
  | some _ => Except.error "TypeError: split is not a function"

/-- The `📅 Status` field value of `createVercelEmbed`:
`deployment?.state || type?.split(".")[1] || "unknown"`. -/
def vercelStatusVal (statePart ty : Option Json) : Except String Json :=
  if truthy statePart then Except.ok (statePart.getD Json.null)
  else do
    let sp ← jsSplitChain ty "."
    pure (jsValOr (jsIndex sp 1) (Json.str "unknown"))

/-- The conditional shortened-commit field of `createVercelEmbed`:
`deployment.meta.githubCommitSha.substring(0, 8)` behind a truthiness
guard; a non-string truthy sha throws. -/
def vercelCommitFields (shaPart : Option Json) : Except String (List EmbedField) :=
  if truthy shaPart then
    match shaPart with
    | some (Json.str s) =>
      Except.ok [EmbedField.mk "🔗 Commit" (Json.str ("`" ++ stringTake s 8 ++ "`")) true]
    | _ => Except.error "TypeError: githubCommitSha.substring is not a function"
  else Except.ok []

/-- `createVercelEmbed(payload)` from `src/services/discord.js`:
destructures `{ deployment, project, type }`, switches on the event type
for title/color/emoji, builds the base fields, and conditionally appends
the deployment-URL field (for `deployment.ready` / `deployment.succeeded`
with a truthy `deployment.url`) and the shortened-commit field. -/
def createVercelEmbed (payload : Json) (c : Clock) : Except String Embed := do
  let deployment ← jsGet (some payload) "deployment"
  let project ← jsGet (some payload) "project"
  let type ← jsGet (some payload) "type"
  let tce :=
    if isStr type "deployment.created" then ("🚀 Vercel Deployment Started", (0x0070F3 : Int), "🚀")
    else if isStr type "deployment.succeeded" then ("✅ Vercel Deployment Succeeded", (0x00D924 : Int), "✅")
    else if isStr type "deployment.failed" then ("❌ Vercel Deployment Failed", (0xFF0000 : Int), "❌")
    else if isStr type "deployment.ready" then ("🎉 Vercel Deployment Ready", (0x00D924 : Int), "🎉")
    else ("📦 Vercel Deployment Update", (0x0070F3 : Int), "📦")
  let statusVal ← vercelStatusVal (jsChain deployment "state") type
  let titleTail := jsToStr (jsOr (((jsSplit tce.1 " - ").get? 1).map Json.str) (some (Json.str "Update")))
  let urlPart := jsChain deployment "url"
  let isReadyOrSucceeded := isStr type "deployment.ready" || isStr type "deployment.succeeded"
  let commitFields ← vercelCommitFields (jsChain (jsChain deployment "meta") "githubCommitSha")
  pure ⟨tce.2.2 ++ " " ++ jsToStrJ (jsValOr (jsChain project "name") (Json.str "Project")) ++ " - " ++ titleTail,
        none,
        tce.2.1,
        (if truthy urlPart && isReadyOrSucceeded then
          some (Json.str ("https://" ++ jsToStr urlPart)) else none),
        c.iso,
        none,
        [⟨"🏗️ Project", jsValOr (jsChain project "name") (Json.str "Unknown"), true⟩,
         ⟨"🌍 Environment", jsValOr (jsChain deployment "target") (Json.str "production"), true⟩,
         ⟨"📅 Status", statusVal, true⟩] ++
        (if truthy urlPart && isReadyOrSucceeded then
          [EmbedField.mk "🔗 Deployment URL"
            (Json.str ("[" ++ jsToStr urlPart ++ "](https://" ++ jsToStr urlPart ++ ")")) false]
         else []) ++ commitFields,
        some ⟨"Vercel", "https://assets.vercel.com/image/upload/v1588805858/repositories/vercel/logo.png"⟩⟩

/-- Filter an updated-refs entry into the `🌿 Updated References` line:
`ref.ref` with `refs/heads/` / `refs/tags/` stripped, tagged with
created/deleted/updated according to `oldSha === null` / `newSha === null`. -/
def refInfoLine (x : Json) : Except String String := do
  let r ← jsGet (some x) "ref"
  let rs ← match r with
    | some (Json.str s) => pure s
    | _ => Except.error "TypeError: ref.replace is not a function"
  let refName := jsReplace (jsReplace rs "refs/heads/" "") "refs/tags/" ""
  let oldSha ← jsGet (some x) "oldSha"
  let newSha ← jsGet (some x) "newSha"
  let action :=
    if isNullVal oldSha then "created"
    else if isNullVal newSha then "deleted"
    else "updated"
  pure ("`" ++ refName ++ "` (" ++ action ++ ")")

/-- `refInfoLine` mapped over the refs array. -/
def refInfoLines : List Json → Except String (List String)
  | [] => Except.ok []
  | x :: xs => do
    let l ← refInfoLine x
    let rest ← refInfoLines xs
    pure (l :: rest)

/-- `updatedRefs.find((ref) => ref.ref === "refs/heads/main")`; element
property access may throw on `null` elements. -/
def findMainRef : List Json → Except String (Option Json)
  | [] => Except.ok none
  | x :: xs => do
    let r ← jsGet (some x) "ref"
    if isStr r "refs/heads/main" then pure (some x) else findMainRef xs

/-- Coerce a truthy `action` value to a string for
`action.charAt(0).toUpperCase() + action.slice(1)`; non-string receivers
throw. -/
def jsCharAtString (action : Json) : Except String String :=
  match action with
  | Json.str s => Except.ok s
  | _ => Except.error "TypeError: action.charAt is not a function"

/-- Array method call on a value: yields the element list for an array,
a `TypeError` for any other receiver (`updatedRefs.find` in the source). -/
def asArray (v : Json) : Except String (List Json) :=
  match v with
  | Json.arr xs => Except.ok xs
  | _ => Except.error "TypeError: updatedRefs.find is not a function"

/-- `commitSha?.slice(0, 7)`: works on strings and arrays, skipped on
`undefined`/`null`, a `TypeError` otherwise. -/
def jsSliceChain (v : Option Json) (n : Nat) : Except String (Option Json) :=
  match v with
  | none => Except.ok none
  | some Json.null => Except.ok none
  | some (Json.str s) => Except.ok (some (Json.str (stringTake s n)))
  | some (Json.arr xs) => Except.ok (some (Json.arr (xs.take n)))
  | some _ => Except.error "TypeError: slice is not a function"

/-- `createHuggingFaceEmbed(payload)` from `src/services/discord.js`
(the updated-refs-based version used by the push handler): repository
name/url/type, commit sha from the main ref or `headSha`, fixed gold
colour, a Discord-timestamp `📅 Time` field from `Date.now()`, and an
optional `🌿 Updated References` field. -/
def createHuggingFaceEmbed (payload : Json) (c : Clock) : Except String Embed := do
  let repo ← jsGet (some payload) "repo"
  let repoName := jsValOr (jsChain repo "name") (Json.str "unknown")
  let repoUrl := jsValOr (jsChain (jsChain repo "url") "web")
    (Json.str ("https://huggingface.co/" ++ jsToStrJ repoName))
  let repoType := jsValOr (jsChain repo "type") (Json.str "repository")
  let headSha := jsChain repo "headSha"
  let updatedRefsV ← jsGet (some payload) "updatedRefs"
  let updatedRefs := jsValOr updatedRefsV (Json.arr [])
  let refsList ← asArray updatedRefs
  let found ← findMainRef refsList
  let mainRef := jsOr found (refsList.get? 0)
  let commitSha := jsOr (jsChain mainRef "newSha") headSha
  let shaSlice ← jsSliceChain commitSha 7
  let repoTypeStr ← jsCharAtString repoType
  let refFields ←
    if refsList.length > 0 then do
      let infos ← refInfoLines refsList
      pure [EmbedField.mk "🌿 Updated References" (Json.str (joinSep ", " infos)) false]
    else pure []
  pure ⟨"🚀 New Push to Hugging Face " ++ jsUcFirst repoTypeStr,
        some ("A fresh commit just landed in **`" ++ jsToStrJ repoName ++ "`**."),
        0xFFD700,
        some repoUrl,
        c.iso,
        some "https://huggingface.co/front/assets/huggingface_logo-noborder.svg",
        [⟨"📦 Repository", Json.str ("`" ++ jsToStrJ repoName ++ "`"), true⟩,
         ⟨"🏷️ Type", Json.str ("`" ++ jsToStrJ repoType ++ "`"), true⟩,
         ⟨"🆔 Commit SHA", Json.str ("`" ++ jsToStr (jsOr shaSlice (some (Json.str "n/a"))) ++ "`"), true⟩,
         ⟨"📅 Time", Json.str ("<t:" ++ toString (c.ms / 1000) ++ ":F>"), true⟩] ++ refFields,
        some ⟨"Hugging Face • WebhookBot", "https://cdn-icons-png.flaticon.com/512/5968/5968705.png"⟩⟩

/-! ### Hugging Face route handlers (`src/routes/hf.js`) -/

/-- `Object.keys` of a JS value: own enumerable keys of an object, index
keys for strings and arrays, empty otherwise. -/
def jsObjectKeys : Json → List String
  | Json.obj kvs => kvs.map Prod.fst
  | Json.str s => (List.range s.length).map (fun n => toString n)
  | Json.arr xs => (List.range xs.length).map (fun n => toString n)
  | _ => []

/-- The embed built by `handleRepositoryEvent` (scope `repo`). -/
def hfRepoEmbed (payload : Json) (c : Clock) : Except String Embed := do
  let evt ← jsGet (some payload) "event"
  let action := jsValOr (jsChain evt "action") (Json.str "updated")
  let repo ← jsGet (some payload) "repo"
  let repoName := jsValOr (jsChain repo "name") (Json.str "Unknown")
  let repoType := jsValOr (jsChain repo "type") (Json.str "repository")
  let actionStr ← jsCharAtString action
  let urlWeb := jsChain (jsChain repo "url") "web"
  pure ⟨"🏗️ Repository " ++ jsUcFirst actionStr,
        some ("The " ++ jsToStrJ repoType ++ " **`" ++ jsToStrJ repoName ++ "`** was " ++ jsToStrJ action ++ "."),
        0xFF6B35,
        (if truthy urlWeb then urlWeb else none),
        c.iso,
        none,
        [⟨"📦 Repository", Json.str ("`" ++ jsToStrJ repoName ++ "`"), true⟩,
         ⟨"🏷️ Type", Json.str ("`" ++ jsToStrJ repoType ++ "`"), true⟩,
         ⟨"🔔 Action", Json.str ("`" ++ jsToStrJ action ++ "`"), true⟩],
        some ⟨"Hugging Face • WebhookBot", "https://cdn-icons-png.flaticon.com/512/5968/5968705.png"⟩⟩

/-- The embed built by `handleConfigEvent` (scope `repo.config`). -/
def hfConfigEmbed (payload : Json) (c : Clock) : Except String Embed := do
  let repo ← jsGet (some payload) "repo"
  let repoName := jsValOr (jsChain repo "name") (Json.str "Unknown")
  let updatedConfigV ← jsGet (some payload) "updatedConfig"
  let updatedConfig := jsValOr updatedConfigV (Json.obj [])
  let configKeys := jsObjectKeys updatedConfig
  let urlWeb := jsChain (jsChain repo "url") "web"
  pure ⟨"⚙️ Configuration Updated",
        some ("Configuration changes were made to **`" ++ jsToStrJ repoName ++ "`**."),
        0x6366F1,
        (if truthy urlWeb then urlWeb else none),
        c.iso,
        none,
        [⟨"📦 Repository", Json.str ("`" ++ jsToStrJ repoName ++ "`"), true⟩,
         ⟨"🔧 Updated Settings",
          (if configKeys.length > 0 then
            Json.str (joinSep ", " (configKeys.map (fun k => "`" ++ k ++ "`")))
           else Json.str "Configuration updated"), false⟩],
        some ⟨"Hugging Face • WebhookBot", "https://cdn-icons-png.flaticon.com/512/5968/5968705.png"⟩⟩

/-- The embed built by `handleDiscussionEvent` (scope `discussion`). -/
def hfDiscussionEmbed (payload : Json) (c : Clock) : Except String Embed := do
  let evt ← jsGet (some payload) "event"
  let action := jsValOr (jsChain evt "action") (Json.str "updated")
  let discussionV ← jsGet (some payload) "discussion"
  let discussion := jsValOr discussionV (Json.obj [])
  let repo ← jsGet (some payload) "repo"
  let repoName := jsValOr (jsChain repo "name") (Json.str "Unknown")
  let isPR := truthy (jsChain (some discussion) "isPullRequest")
  let typeName := if isPR then "Pull Request" else "Discussion"
  let actionStr ← jsCharAtString action
  let urlWeb := jsChain (jsChain (some discussion) "url") "web"
  pure ⟨"💬 " ++ typeName ++ " " ++ jsUcFirst actionStr,
        some ("A " ++ stringToLower typeName ++ " was " ++ jsToStrJ action ++ " in **`" ++ jsToStrJ repoName ++ "`**."),
        (if isPR then 0x22C55E else 0x3B82F6),
        (if truthy urlWeb then urlWeb else none),
        c.iso,
        none,
        [⟨"📦 Repository", Json.str ("`" ++ jsToStrJ repoName ++ "`"), true⟩,
         ⟨"📝 Title", jsValOr (jsChain (some discussion) "title") (Json.str "No title"), false⟩,
         ⟨"🔔 Action", Json.str ("`" ++ jsToStrJ action ++ "`"), true⟩],
        some ⟨"Hugging Face • WebhookBot", "https://cdn-icons-png.flaticon.com/512/5968/5968705.png"⟩⟩

/-- The `💬 Comment Preview` value of `handleCommentEvent`: the content
unmodified if at most 100 characters, its first 100 characters plus `"..."`
if longer, `"No content"` when content is falsy. -/
def commentPreview (content : Option Json) : Except String Json :=
  if truthy content then
    match content with
    | some (Json.str s) =>
      Except.ok (if s.length > 100 then Json.str (stringTake s 100 ++ "...") else Json.str s)
    | some (Json.arr xs) =>
      if xs.length > 100 then Except.error "TypeError: content.substring is not a function"
      else Except.ok (Json.arr xs)
    | some v => Except.ok v
    | none => Except.ok Json.null
  else Except.ok (Json.str "No content")

/-- The embed built by `handleCommentEvent` (scope `discussion.comment`). -/
def hfCommentEmbed (payload : Json) (c : Clock) : Except String Embed := do
  let evt ← jsGet (some payload) "event"
  let action := jsValOr (jsChain evt "action") (Json.str "created")
  let commentV ← jsGet (some payload) "comment"
  let comment := jsValOr commentV (Json.obj [])
  let discussionV ← jsGet (some payload) "discussion"
  let discussion := jsValOr discussionV (Json.obj [])
  let repo ← jsGet (some payload) "repo"
  let repoName := jsValOr (jsChain repo "name") (Json.str "Unknown")
  let isPR := truthy (jsChain (some discussion) "isPullRequest")
  let typeName := if isPR then "Pull Request" else "Discussion"
  let actionStr ← jsCharAtString action
  let preview ← commentPreview (jsChain (some comment) "content")
  let urlWeb := jsChain (jsChain (some comment) "url") "web"
  pure ⟨"💭 Comment " ++ jsUcFirst actionStr,
        some ("A comment was " ++ jsToStrJ action ++ " on a " ++ stringToLower typeName ++ " in **`" ++ jsToStrJ repoName ++ "`**."),
        0x8B5CF6,
        (if truthy urlWeb then urlWeb else none),
        c.iso,
        none,
        [⟨"📦 Repository", Json.str ("`" ++ jsToStrJ repoName ++ "`"), true⟩,
         ⟨"📝 Discussion", jsValOr (jsChain (some discussion) "title") (Json.str "No title"), false⟩,
         ⟨"💬 Comment Preview", preview, false⟩],
        some ⟨"Hugging Face • WebhookBot", "https://cdn-icons-png.flaticon.com/512/5968/5968705.png"⟩⟩

/-- The embed built by the Hugging Face `handleGenericEvent` fallback. -/
def hfGenericEmbed (payload : Json) (eventType : String) (c : Clock) : Except String Embed := do
  let repo ← jsGet (some payload) "repo"
  let repository ← jsGet (some payload) "repository"
  let repoUrl := jsOr (jsChain repo "url") (jsChain repository "html_url")
  pure ⟨"🤗 Hugging Face Event: " ++ eventType,
        some ("Received " ++ eventType ++ " event from Hugging Face"),
        0xFF6B35,
        (if truthy repoUrl then repoUrl else none),
        c.iso,
        none,
        [⟨"📦 Repository", jsValOr (jsChain repo "name") (jsValOr (jsChain repository "name") (Json.str "Unknown")), true⟩,
         ⟨"🔔 Event Type", Json.str eventType, true⟩],
        some ⟨"Hugging Face", "https://huggingface.co/front/assets/huggingface_logo-noborder.svg"⟩⟩

/-- The embed built by the Vercel `handleGenericEvent` fallback
(`src/routes/vercel.js`); `eventType` is the raw `payload.type ||
"deployment.unknown"` value. -/
def vercelGenericEmbed (payload : Json) (eventType : Json) (c : Clock) : Except String Embed := do
  let project ← jsGet (some payload) "project"
  let deployment ← jsGet (some payload) "deployment"
  let depUrl := jsChain deployment "url"
  pure ⟨"⚡ Vercel Event: " ++ jsToStrJ eventType,
        some ("Received " ++ jsToStrJ eventType ++ " event from Vercel"),
        0x0070F3,
        (if truthy depUrl then some (Json.str ("https://" ++ jsToStr depUrl)) else none),
        c.iso,
        none,
        [⟨"🏗️ Project", jsValOr (jsChain project "name") (Json.str "Unknown"), true⟩,
         ⟨"🔔 Event Type", eventType, true⟩],
        some ⟨"Vercel", "https://assets.vercel.com/image/upload/v1588805858/repositories/vercel/logo.png"⟩⟩

/-! ### Notification sender and routers -/

/-- Outcome of the single `fetch` call: an HTTP response status, or a
rejected promise (network failure). -/
inductive FetchOutcome where
  | response : Nat → FetchOutcome
  | networkError : FetchOutcome

/-- An outbound HTTP request as issued by the sender. -/
structure HttpRequest where
  url : String
  method : String
  contentType : String
  body : Json

/-- Serialisation of an embed field to the wire object. -/
def fieldToJson (f : EmbedField) : Json :=
  Json.obj [("name", Json.str f.name), ("value", f.value), ("inline", Json.bool f.inline)]

/-- Serialisation of an embed to the wire object sent to Discord. -/
def embedToJson (e : Embed) : Json :=
  Json.obj ([("title", Json.str e.title)] ++
    (match e.description with | some d => [("description", Json.str d)] | none => []) ++
    [("color", Json.num e.color), ("timestamp", Json.str e.timestamp)] ++
    (match e.url with | some u => [("url", u)] | none => []) ++
    (match e.thumbnail with | some t => [("thumbnail", Json.obj [("url", Json.str t)])] | none => []) ++
    [("fields", Json.arr (e.fields.map fieldToJson))] ++
    (match e.footer with
     | some f => [("footer", Json.obj [("text", Json.str f.text), ("icon_url", Json.str f.icon_url)])]
     | none => []))

/-- The one outbound request `sendDiscordEmbed` issues: a POST of the JSON
envelope `{ embeds: [embedData] }`. -/
def discordRequest (webhookUrl : String) (embedData : Json) : HttpRequest :=
  ⟨webhookUrl, "POST", "application/json", Json.obj [("embeds", Json.arr [embedData])]⟩

/-- `response.ok` of the Fetch API: status in 200..299. -/
def responseOk (status : Nat) : Bool :=
  decide (200 ≤ status ∧ status ≤ 299)

/-- `sendDiscordEmbed(webhookUrl, embedData)` from `src/services/discord.js`:
one POST of `{ embeds: [embedData] }`; `true` on `response.ok`, `false` on a
non-ok response, `false` (via catch) on a network failure — never throws.
Returns the issued requests together with the boolean result. -/
def sendDiscordEmbed (webhookUrl : String) (embedData : Json) (fetchResult : FetchOutcome) :
    List HttpRequest × Bool :=
  ([discordRequest webhookUrl embedData],
   match fetchResult with
   | FetchOutcome.response st => responseOk st
   | FetchOutcome.networkError => false)

/-- Process environment variables the routes read. -/
structure Env where
  discordWebhookUrl : Option String
  vercelWebhookSecret : Option String

/-- An inbound webhook request: the captured raw body, the signature
header, and the parsed JSON body. -/
structure WebhookRequest where
  rawBody : Option String
  signatureHeader : Option String
  body : Json

/-- A route's HTTP response. -/
structure Response where
  status : Nat
  body : Json

/-- `typeof v === "object"` (true for `null`, arrays and objects). -/
def jsTypeofIsObject : Json → Bool
  | Json.null => true
  | Json.obj _ => true
  | Json.arr _ => true
  | _ => false

/-- The classified Vercel event type `payload.type || "deployment.unknown"`. -/
def vercelEventType (p : Json) : Json :=
  jsValOr (jsChain (some p) "type") (Json.str "deployment.unknown")

/-- The five event types routed to `handleDeploymentEvent` by the Vercel
router's switch. -/
def vercelDeploymentTypes : List String :=
  ["deployment.created", "deployment.succeeded", "deployment.failed",
   "deployment.ready", "deployment.canceled"]

/-- The embed the Vercel route handler builds for a validated payload:
the switch on `payload.type || "deployment.unknown"` dispatches the five
deployment events to `createVercelEmbed` and everything else to the
generic fallback. -/
def vercelDispatch (payload : Json) (c : Clock) : Except String Embed :=
  let eventType := vercelEventType payload
  if vercelDeploymentTypes.any (fun t => isStr (some eventType) t) then
    createVercelEmbed payload c
  else
    vercelGenericEmbed payload eventType c

/-- The Vercel route handler body (after the signature middleware):
payload validation (400), Discord-webhook configuration check (500),
dispatch, send, 200 acknowledgement; a thrown error is caught as 500.
Returns the response together with the messages handed to the sender. -/
def vercelHandler (env : Env) (req : WebhookRequest) (c : Clock) :
    Response × List (String × Embed) :=
  let payload := req.body
  if !(truthy (some payload) && jsTypeofIsObject payload) then
    (⟨400, Json.obj [("error", Json.str "Invalid payload")]⟩, [])
  else if !strTruthy env.discordWebhookUrl then
    (⟨500, Json.obj [("error", Json.str "Discord webhook not configured")]⟩, [])
  else
    let discordUrl := env.discordWebhookUrl.getD ""
    let eventType := vercelEventType payload
    match vercelDispatch payload c with
    | Except.error msg =>
      (⟨500, Json.obj [("error", Json.str "Internal server error"), ("message", Json.str msg)]⟩, [])
    | Except.ok embed =>
      (⟨200, Json.obj [("success", Json.bool true),
                       ("message", Json.str "Webhook processed successfully"),
                       ("eventType", eventType)]⟩,
       [(discordUrl, embed)])

/-- The body the signature middleware verifies:
`req.rawBody || JSON.stringify(req.body)`. -/
def middlewarePayload (req : WebhookRequest) : String :=
  match req.rawBody with
  | some rb => if rb != "" then rb else jsonStringify req.body
  | none => jsonStringify req.body

/-- The full Vercel route: `createSignatureVerificationMiddleware` first
(skipped when `VERCEL_WEBHOOK_SECRET` is unset, 401 when verification
fails on `req.rawBody || JSON.stringify(req.body)`), then the handler. -/
def vercelRoute (env : Env) (req : WebhookRequest) (c : Clock) :
    Response × List (String × Embed) :=
  if !strTruthy env.vercelWebhookSecret then vercelHandler env req c
  else
    if verifyVercelSignature (some (middlewarePayload req)) req.signatureHeader env.vercelWebhookSecret then
      vercelHandler env req c
    else (⟨401, Json.obj [("error", Json.str "Invalid signature")]⟩, [])

/-- `payload.event?.scope` of a Hugging Face payload. -/
def hfScope (p : Json) : Option Json :=
  jsChain (jsChain (some p) "event") "scope"

/-- `payload.event?.action` of a Hugging Face payload. -/
def hfAction (p : Json) : Option Json :=
  jsChain (jsChain (some p) "event") "action"

/-- The interpolated event-type string `` `${eventScope}.${eventAction}` ``. -/
def hfEventType (p : Json) : String :=
  jsToStr (hfScope p) ++ "." ++ jsToStr (hfAction p)

/-- The scopes recognised by the Hugging Face router's switch. -/
def hfRecognisedScopes : List String :=
  ["repo.content", "repo", "repo.config", "discussion", "discussion.comment"]

/-- The embed the Hugging Face route builds: the switch on
`payload.event?.scope` dispatches to the five scope handlers, everything
else to the generic fallback with the interpolated event-type string. -/
def hfDispatch (payload : Json) (c : Clock) : Except String Embed :=
  let scope := hfScope payload
  let eventType := hfEventType payload
  if isStr scope "repo.content" then createHuggingFaceEmbed payload c
  else if isStr scope "repo" then hfRepoEmbed payload c
  else if isStr scope "repo.config" then hfConfigEmbed payload c
  else if isStr scope "discussion" then hfDiscussionEmbed payload c
  else if isStr scope "discussion.comment" then hfCommentEmbed payload c
  else hfGenericEmbed payload eventType c

/-- The Hugging Face route (`src/routes/hf.js`, no signature middleware):
payload validation (400), configuration check (500), dispatch on
`payload.event?.scope`, send, 200 acknowledgement with the event type,
scope and action; a thrown error is caught as 500. -/
def hfRoute (env : Env) (req : WebhookRequest) (c : Clock) :
    Response × List (String × Embed) :=
  let payload := req.body
  if !(truthy (some payload) && jsTypeofIsObject payload) then
    (⟨400, Json.obj [("error", Json.str "Invalid payload")]⟩, [])
  else if !strTruthy env.discordWebhookUrl then
    (⟨500, Json.obj [("error", Json.str "Discord webhook not configured")]⟩, [])
  else
    let discordUrl := env.discordWebhookUrl.getD ""
    let scope := hfScope payload
    let action := hfAction payload
    let eventType := hfEventType payload
    match hfDispatch payload c with
    | Except.error msg =>
      (⟨500, Json.obj [("error", Json.str "Internal server error"), ("message", Json.str msg)]⟩, [])
    | Except.ok embed =>
      (⟨200, Json.obj ([("success", Json.bool true),
                        ("message", Json.str "Webhook processed successfully"),
                        ("eventType", Json.str eventType)] ++
        (match scope with | some v => [("eventScope", v)] | none => []) ++
        (match action with | some v => [("eventAction", v)] | none => []))⟩,
       [(discordUrl, embed)])

/-! ### Derived notions used by the verification -/

/-- A route composed with the sender: the response, and the boolean results
of sending each formatted message with the given fetch outcome. -/
def vercelRouteWithSend (env : Env) (req : WebhookRequest) (c : Clock) (fetch : FetchOutcome) :
    Response × List Bool :=
  let rs := vercelRoute env req c
  (rs.1, rs.2.map (fun s => (sendDiscordEmbed s.1 (embedToJson s.2) fetch).2))

/-- The Hugging Face route composed with the sender. -/
def hfRouteWithSend (env : Env) (req : WebhookRequest) (c : Clock) (fetch : FetchOutcome) :
    Response × List Bool :=
  let rs := hfRoute env req c
  (rs.1, rs.2.map (fun s => (sendDiscordEmbed s.1 (embedToJson s.2) fetch).2))

/-- The value of the named field of an embed, if present. -/
def embedFieldValue (e : Embed) (n : String) : Option Json :=
  (e.fields.find? (fun f => f.name == n)).map EmbedField.value

/-- Project a JS value to a string when it is one. -/
def asString : Option Json → Option String
  | some (Json.str s) => some s
  | _ => none

/-- Key lookup in a JSON object response body. -/
def bodyLookup (r : Json) (k : String) : Option Json :=
  match r with
  | Json.obj kvs => Json.lookup k kvs
  | _ => none

/-- An embed with its timestamp blanked (comparison modulo the timestamp). -/
def sansTimestamp (e : Embed) : Embed :=
  ⟨e.title, e.description, e.color, e.url, "", e.thumbnail, e.fields, e.footer⟩

/-- An embed with its timestamp blanked and the `📅 Time` field removed
(comparison modulo all wall-clock-derived content). -/
def sansTimeFields (e : Embed) : Embed :=
  ⟨e.title, e.description, e.color, e.url, "", e.thumbnail,
   e.fields.filter (fun f => f.name != "📅 Time"), e.footer⟩

/-- The value is a string, or falsy: the shapes under which a truthiness
guard followed by a string-method call cannot throw. -/
def stringOrFalsy (o : Option Json) : Prop :=
  (∃ s, o = some (Json.str s)) ∨ truthy o = false

/-- Well-formedness of a formatting result (the properties claimed for
every constructed embed: non-empty title, timestamp set at formatting
time).  The remaining claimed properties — integer colour and
name/value/inline on every fields entry — hold by construction of the
`Embed` and `EmbedField` record types. -/
def embedWF (c : Clock) : Except String Embed → Prop
  | Except.ok e => e.title ≠ "" ∧ e.timestamp = c.iso
  | Except.error _ => True

/-- The comment content a Hugging Face comment payload carries:
`(payload.comment || {}).content`. -/
def commentContentOf (p : Json) : Except String (Option Json) := do
  let commentV ← jsGet (some p) "comment"
  pure (jsChain (some (jsValOr commentV (Json.obj []))) "content")

/-- The repository-name value shown by the Hugging Face generic fallback:
`payload.repo?.name || payload.repository?.name || "Unknown"`. -/
def hfGenericRepoName (p : Json) : Except String Json := do
  let repo ← jsGet (some p) "repo"
  let repository ← jsGet (some p) "repository"
  pure (jsValOr (jsChain repo "name") (jsValOr (jsChain repository "name") (Json.str "Unknown")))

/-- The embed value the Hugging Face generic fallback produces on a
non-null object-typed payload (all plain accesses written as chains). -/
def hfGenericEmbedVal (p : Json) (et : String) (c : Clock) : Embed :=
  ⟨"🤗 Hugging Face Event: " ++ et,
   some ("Received " ++ et ++ " event from Hugging Face"),
   0xFF6B35,
   (if truthy (jsOr (jsChain (jsChain (some p) "repo") "url")
        (jsChain (jsChain (some p) "repository") "html_url")) = true then
      jsOr (jsChain (jsChain (some p) "repo") "url")
        (jsChain (jsChain (some p) "repository") "html_url")
    else none),
   c.iso, none,
   [⟨"📦 Repository", jsValOr (jsChain (jsChain (some p) "repo") "name")
      (jsValOr (jsChain (jsChain (some p) "repository") "name") (Json.str "Unknown")), true⟩,
    ⟨"🔔 Event Type", Json.str et, true⟩],
   some ⟨"Hugging Face", "https://huggingface.co/front/assets/huggingface_logo-noborder.svg"⟩⟩

/-- The sixteen hex digits in both cases. -/
def hexChars : List Char :=
  (List.range 16).map hexDigitChar ++ (List.range 6).map (fun n => Char.ofNat (65 + n))

/-- Replace the character at an index of a string. -/
def flipAt (s : String) (i : Nat) (c : Char) : String :=
  ⟨s.toList.set i c⟩

/-- The reference digest of the spec's signature test:
HMAC-SHA256 of body `"hello"` under secret `"s3cr3t"`, hex encoded
(equal to `hmacHexDigest HashAlg.sha256 "s3cr3t" "hello"`, proved below). -/
def c5digest : String :=
  "6b23653f08c72072554e5dfef9b72efe01fcfe724a950689e991e7bd7089eb3e"

/-! ### Helper lemmas -/

set_option maxRecDepth 100000

/-- A string with a non-empty prefix is non-empty. -/
theorem append_ne_empty (a b : String) (h : a.length ≠ 0) : a ++ b ≠ "" := by
  intro he
  have hl := congrArg String.length he
  rw [String.length_append] at hl
  have h0 : ("" : String).length = 0 := rfl
  omega

/-- Each byte of a 4-byte big-endian encoding is below 256. -/
theorem be4Bytes_lt (w : Nat) : ∀ b ∈ be4Bytes w, b < 256 := by
  intro b hb
  simp [be4Bytes] at hb
  rcases hb with rfl | rfl | rfl | rfl <;> omega

/-- The serialised SHA-256 registers are 32 bytes. -/
theorem sha256RegsBytes_length (r : Sha256Regs) : (sha256RegsBytes r).length = 32 := by
  simp [sha256RegsBytes, be4Bytes]

/-- The serialised SHA-1 registers are 20 bytes. -/
theorem sha1RegsBytes_length (r : Sha1Regs) : (sha1RegsBytes r).length = 20 := by
  simp [sha1RegsBytes, be4Bytes]

/-- SHA-256 digests are 32 bytes long. -/
theorem sha256_length (msg : List Nat) : (sha256 msg).length = 32 :=
  sha256RegsBytes_length _

/-- SHA-1 digests are 20 bytes long. -/
theorem sha1_length (msg : List Nat) : (sha1 msg).length = 20 :=
  sha1RegsBytes_length _

/-- Serialised SHA-256 register bytes are below 256. -/
theorem sha256RegsBytes_lt (r : Sha256Regs) : ∀ b ∈ sha256RegsBytes r, b < 256 := by
  intro b hb
  simp only [sha256RegsBytes, List.mem_append] at hb
  rcases hb with ((((((h | h) | h) | h) | h) | h) | h) | h <;> exact be4Bytes_lt _ _ h

/-- Serialised SHA-1 register bytes are below 256. -/
theorem sha1RegsBytes_lt (r : Sha1Regs) : ∀ b ∈ sha1RegsBytes r, b < 256 := by
  intro b hb
  simp only [sha1RegsBytes, List.mem_append] at hb
  rcases hb with (((h | h) | h) | h) | h <;> exact be4Bytes_lt _ _ h

/-- SHA-256 digest bytes are below 256. -/
theorem sha256_lt (msg : List Nat) : ∀ b ∈ sha256 msg, b < 256 :=
  sha256RegsBytes_lt _

/-- SHA-1 digest bytes are below 256. -/
theorem sha1_lt (msg : List Nat) : ∀ b ∈ sha1 msg, b < 256 :=
  sha1RegsBytes_lt _

/-- HMAC digests have the algorithm's digest length. -/
theorem hmacBytes_length (alg : HashAlg) (k m : List Nat) :
    (hmacBytes (hashBytes alg) k m).length = digestByteLength alg := by
  cases alg <;> simp [hmacBytes, hashBytes, digestByteLength, sha1_length, sha256_length]

/-- HMAC digest bytes are below 256. -/
theorem hmacBytes_lt (alg : HashAlg) (k m : List Nat) :
    ∀ b ∈ hmacBytes (hashBytes alg) k m, b < 256 := by
  cases alg <;> intro b hb <;> simp only [hmacBytes, hashBytes] at hb
  · exact sha1_lt _ _ hb
  · exact sha256_lt _ _ hb

/-- Decoding a generated hex digit gives back its value. -/
theorem hexCharVal_hexDigitChar : ∀ n, n < 16 → hexCharVal (hexDigitChar n) = some n := by
  decide

/-- Hex decoding inverts hex encoding on byte lists. -/
theorem hexDecode_hexEncode (bs : List Nat) (h : ∀ b ∈ bs, b < 256) :
    hexDecode (hexEncode bs) = bs := by
  suffices hgen : ∀ (l : List Nat), (∀ b ∈ l, b < 256) →
      hexDecodeAux (l.foldr (fun b acc => hexDigitChar (b / 16 % 16) :: hexDigitChar (b % 16) :: acc) []) = l by
    exact hgen bs h
  intro l
  induction l with
  | nil => intro _; rfl
  | cons b t ih =>
    intro hl
    have hb : b < 256 := hl b (by simp)
    have h1 : hexCharVal (hexDigitChar (b / 16 % 16)) = some (b / 16 % 16) :=
      hexCharVal_hexDigitChar _ (Nat.mod_lt _ (by omega))
    have h2 : hexCharVal (hexDigitChar (b % 16)) = some (b % 16) :=
      hexCharVal_hexDigitChar _ (Nat.mod_lt _ (by omega))
    simp only [List.foldr_cons, hexDecodeAux, h1, h2]
    rw [ih (fun x hx => hl x (List.mem_cons_of_mem _ hx))]
    congr 1
    omega

/-- The hex digest of an HMAC decodes back to the digest bytes. -/
theorem hexDecode_hmacHexDigest (alg : HashAlg) (sec p : String) :
    hexDecode (hmacHexDigest alg sec p) = hmacBytes (hashBytes alg) (utf8Bytes sec) (utf8Bytes p) :=
  hexDecode_hexEncode _ (hmacBytes_lt alg _ _)

/-- The hex digest of an HMAC decodes to the algorithm's digest length. -/
theorem hexDecode_hmacHexDigest_length (alg : HashAlg) (sec p : String) :
    (hexDecode (hmacHexDigest alg sec p)).length = digestByteLength alg := by
  rw [hexDecode_hmacHexDigest]
  exact hmacBytes_length alg _ _

/-- Sanity vector: SHA-256 of `"abc"` (FIPS 180-2 test vector). -/
theorem sha256_abc :
    hexEncode (sha256 (utf8Bytes "abc")) =
      "ba7816bf8f01cfea414140de5dae2223b00361a396177a9cb410ff61f20015ad" := by
  decide

/-- Sanity vector: SHA-1 of `"abc"` (FIPS 180-1 test vector). -/
theorem sha1_abc :
    hexEncode (sha1 (utf8Bytes "abc")) = "a9993e364706816aba3e25717850c26c9cd0d89d" := by
  decide

/-- The spec's reference digest: HMAC-SHA256 of `"hello"` under
`"s3cr3t"`. -/
theorem hmacHexDigest_c5 : hmacHexDigest HashAlg.sha256 "s3cr3t" "hello" = c5digest := by
  decide

/-! ### Claim theorems -/

/-- Claim C4: signature verification fails closed and is total: for every
payload, signature-header value and secret, verification returns `false` —
and never throws (the verifiers are total Lean functions returning `Bool`,
the `timingSafeEqual` length `RangeError` being caught) — when the
signature header is absent, when it does not start with the algorithm's
prefix (`sha1=` for the Vercel verifier, `sha256=` for the GitHub
verifier), when the payload or secret is missing (absent or empty), or
when the supplied hex signature decodes to a byte length different from
the expected digest's length. -/
theorem C4_theorem :
    (∀ p sec, verifyVercelSignature p none sec = false ∧ verifyGitHubSignature p none sec = false) ∧
    (∀ p s sec, jsStartsWith s "sha1=" = false → verifyVercelSignature p (some s) sec = false) ∧
    (∀ p s sec, jsStartsWith s "sha256=" = false → verifyGitHubSignature p (some s) sec = false) ∧
    (∀ s sec alg, verifyHmacSignature none s sec alg = false ∧
      verifyHmacSignature (some "") s sec alg = false) ∧
    (∀ p s alg, verifyHmacSignature p s none alg = false ∧
      verifyHmacSignature p s (some "") alg = false) ∧
    (∀ p s sec alg, (hexDecode s).length ≠ digestByteLength alg →
      verifyHmacSignature (some p) (some s) (some sec) alg = false) := by
  refine ⟨fun p sec => ⟨rfl, rfl⟩, ?_, ?_, ?_, ?_, ?_⟩
  · intro p s sec h
    simp [verifyVercelSignature, h]
  · intro p s sec h
    simp [verifyGitHubSignature, h]
  · intro s sec alg
    exact ⟨rfl, rfl⟩
  · intro p s alg
    cases p <;> cases s <;> simp [verifyHmacSignature, strTruthy]
  · intro p s sec alg h
    by_cases hf : (!strTruthy (some p) || !strTruthy (some s) || !strTruthy (some sec)) = true
    · simp [verifyHmacSignature, hf]
    · simp only [verifyHmacSignature, hf, Bool.false_eq_true, if_false]
      have hlen := hexDecode_hmacHexDigest_length alg sec p
      simp [timingSafeEqual, Option.getD, hlen, h]

/-- Witness for C4: concrete instances of each fails-closed case. -/
theorem C4_witness :
    verifyVercelSignature (some "body") none (some "k") = false ∧
    verifyVercelSignature (some "body") (some "nope") (some "k") = false ∧
    verifyGitHubSignature (some "body") (some "sha1=aa") (some "k") = false ∧
    verifyHmacSignature none (some "aa") (some "k") HashAlg.sha256 = false ∧
    verifyHmacSignature (some "body") (some "aa") none HashAlg.sha1 = false ∧
    verifyHmacSignature (some "body") (some "abcd") (some "k") HashAlg.sha256 = false :=
  ⟨(C4_theorem.1 (some "body") (some "k")).1,
   C4_theorem.2.1 (some "body") "nope" (some "k") (by decide),
   C4_theorem.2.2.1 (some "body") "sha1=aa" (some "k") (by decide),
   (C4_theorem.2.2.2.1 (some "aa") (some "k") HashAlg.sha256).1,
   (C4_theorem.2.2.2.2.1 (some "body") (some "aa") HashAlg.sha1).1,
   C4_theorem.2.2.2.2.2 "body" "abcd" "k" HashAlg.sha256 (by decide)⟩

/-- Catching the length error of `timingSafeEqual` yields `true` exactly
for equal byte lists. -/
theorem timingCatch_eq_true_iff (a b : List Nat) :
    (match timingSafeEqual a b with
     | Except.ok x => x
     | Except.error _ => false) = true ↔ a = b := by
  by_cases h : a.length = b.length
  · simp [timingSafeEqual, h]
  · simp only [timingSafeEqual, h, if_false]
    constructor
    · intro he
      exact absurd he (by simp)
    · intro he
      exact absurd (congrArg List.length he) h

/-- On non-falsy inputs, `verifyHmacSignature` is the caught timing-safe
comparison of the decoded signature against the decoded expected digest. -/
theorem verify_nonfalsy (p sg sec : String) (alg : HashAlg)
    (hp : p ≠ "") (hsg : sg ≠ "") (hsec : sec ≠ "") :
    verifyHmacSignature (some p) (some sg) (some sec) alg =
      (match timingSafeEqual (hexDecode sg) (hexDecode (hmacHexDigest alg sec p)) with
       | Except.ok x => x
       | Except.error _ => false) := by
  simp [verifyHmacSignature, strTruthy, hp, hsg, hsec]

/-- For the spec's fixed secret and body, verification succeeds exactly
when the signature hex-decodes to the reference digest's bytes. -/
theorem c5_verify_iff (sig : String) (hsig : sig ≠ "") :
    verifyHmacSignature (some "hello") (some sig) (some "s3cr3t") HashAlg.sha256 = true ↔
      hexDecode sig = hexDecode c5digest := by
  rw [verify_nonfalsy "hello" sig "s3cr3t" HashAlg.sha256 (by decide) hsig (by decide),
    hmacHexDigest_c5]
  exact timingCatch_eq_true_iff _ _

/-- Changing any single hex character of the reference digest to a
character of a different hex value changes its decoded bytes (checked by
evaluation over all 64 positions and 22 hex characters). -/
theorem c5_flip_decode_ne :
    ∀ i, i < 64 → ∀ c ∈ hexChars, hexCharVal c ≠ hexCharVal (c5digest.toList.getD i ' ') →
      hexDecode (flipAt c5digest i c) ≠ hexDecode c5digest := by
  decide

/-- Counterexample for C5: the upper-case spelling of the reference digest
is a signature different from the hex-encoded digest, yet verification
returns `true` (Node hex decoding is case-insensitive), so "returns true
exactly when the supplied signature equals the hex-encoded digest" fails. -/
theorem C5_counterexample :
    verifyHmacSignature (some "hello")
        (some "6B23653F08C72072554E5DFEF9B72EFE01FCFE724A950689E991E7BD7089EB3E")
        (some "s3cr3t") HashAlg.sha256 = true ∧
      "6B23653F08C72072554E5DFEF9B72EFE01FCFE724A950689E991E7BD7089EB3E" ≠
        hmacHexDigest HashAlg.sha256 "s3cr3t" "hello" := by
  constructor
  · decide
  · rw [hmacHexDigest_c5]
    decide

/-- Claim C5 (amended): for the fixed secret `"s3cr3t"` and body `"hello"`,
`verifyHmacSignature` with sha256 returns true exactly when the supplied
(non-empty) signature hex-decodes to the digest's byte sequence — in
particular for the lower-case hex digest itself, but also for case
variants — and flipping any single hex character of the valid signature to
a hex character of a different value makes it return false. -/
theorem C5_theorem :
    (∀ sig : String, sig ≠ "" →
      (verifyHmacSignature (some "hello") (some sig) (some "s3cr3t") HashAlg.sha256 = true ↔
        hexDecode sig = hexDecode c5digest)) ∧
    (∀ i c, i < 64 → c ∈ hexChars → hexCharVal c ≠ hexCharVal (c5digest.toList.getD i ' ') →
      verifyHmacSignature (some "hello") (some (flipAt c5digest i c)) (some "s3cr3t")
        HashAlg.sha256 = false) := by
  refine ⟨fun sig h => c5_verify_iff sig h, ?_⟩
  intro i c hi hc hne
  have hflip : flipAt c5digest i c ≠ "" := by
    intro h
    have h2 : (c5digest.toList.set i c).length = 0 := congrArg (fun s => s.toList.length) h
    rw [List.length_set] at h2
    exact absurd h2 (by decide)
  have hdec := c5_flip_decode_ne i hi c hc hne
  cases hres : verifyHmacSignature (some "hello") (some (flipAt c5digest i c)) (some "s3cr3t")
      HashAlg.sha256 with
  | false => rfl
  | true => exact absurd ((c5_verify_iff _ hflip).mp hres) hdec

/-- Witness for C5: the digest itself verifies, and flipping its first hex
character to `'0'` fails. -/
theorem C5_witness :
    verifyHmacSignature (some "hello") (some c5digest) (some "s3cr3t") HashAlg.sha256 = true ∧
    verifyHmacSignature (some "hello") (some (flipAt c5digest 0 '0')) (some "s3cr3t")
      HashAlg.sha256 = false :=
  ⟨(C5_theorem.1 c5digest (by decide)).mpr rfl,
   C5_theorem.2 0 '0' (by decide) (by decide) (by decide)⟩

/-- Claim C9: for every webhook URL and message, the sender issues exactly
one outbound HTTP POST whose body is the JSON envelope
`{ embeds: [message] }` (a single-element collection), returns `true`
exactly when the response status is 2xx, and returns `false` on a non-2xx
response or on a network failure; it never throws (it is a total function
into `List HttpRequest × Bool`, the fetch rejection being caught). -/
theorem C9_theorem (webhookUrl : String) (embedData : Json) (fetch : FetchOutcome) :
    (sendDiscordEmbed webhookUrl embedData fetch).1 = [discordRequest webhookUrl embedData] ∧
    (discordRequest webhookUrl embedData).method = "POST" ∧
    (discordRequest webhookUrl embedData).body = Json.obj [("embeds", Json.arr [embedData])] ∧
    ((sendDiscordEmbed webhookUrl embedData fetch).2 = true ↔
      ∃ st, fetch = FetchOutcome.response st ∧ 200 ≤ st ∧ st ≤ 299) ∧
    (fetch = FetchOutcome.networkError → (sendDiscordEmbed webhookUrl embedData fetch).2 = false) := by
  refine ⟨rfl, rfl, rfl, ?_, ?_⟩
  · cases fetch with
    | response st =>
      simp only [sendDiscordEmbed, responseOk, decide_eq_true_eq]
      constructor
      · intro h
        exact ⟨st, rfl, h.1, h.2⟩
      · rintro ⟨st', he, h1, h2⟩
        cases he
        exact ⟨h1, h2⟩
    | networkError => simp [sendDiscordEmbed]
  · intro h
    subst h
    rfl

/-- Counterexample for C2: with a signature secret configured, a request
whose parsed payload is the number `1` (not a structured object) and whose
signature is invalid receives status 401 from the Vercel route — not the
400 the claim requires — because the signature middleware runs before the
handler's payload validation. -/
theorem C2_counterexample :
    (vercelRoute ⟨some "https://discord.example/webhook", some "s"⟩
        ⟨some "1", none, Json.num 1⟩ ⟨0, "T"⟩).1.status = 401 ∧
    jsTypeofIsObject (Json.num 1) = false ∧
    (401 : Nat) ≠ 400 :=
  ⟨rfl, rfl, by decide⟩

/-- Claim C2 (amended): the Vercel route performs its checks in the order:
optional signature verification first (middleware: emit 401 when a secret
is configured and verification of `req.rawBody || JSON.stringify(req.body)`
fails — even when the payload is not a structured object), then
payload-structure validation (emit 400 on a non-object payload), then the
chat-webhook configuration check (emit 500 when unconfigured). -/
theorem C2_theorem :
    (∀ (env : Env) (req : WebhookRequest) (c : Clock),
      strTruthy env.vercelWebhookSecret = true →
      verifyVercelSignature (some (middlewarePayload req)) req.signatureHeader
        env.vercelWebhookSecret = false →
      (vercelRoute env req c).1.status = 401) ∧
    (∀ (env : Env) (req : WebhookRequest) (c : Clock),
      (strTruthy env.vercelWebhookSecret = false ∨
        verifyVercelSignature (some (middlewarePayload req)) req.signatureHeader
          env.vercelWebhookSecret = true) →
      (truthy (some req.body) && jsTypeofIsObject req.body) = false →
      (vercelRoute env req c).1.status = 400) ∧
    (∀ (env : Env) (req : WebhookRequest) (c : Clock),
      (strTruthy env.vercelWebhookSecret = false ∨
        verifyVercelSignature (some (middlewarePayload req)) req.signatureHeader
          env.vercelWebhookSecret = true) →
      (truthy (some req.body) && jsTypeofIsObject req.body) = true →
      strTruthy env.discordWebhookUrl = false →
      (vercelRoute env req c).1.status = 500) := by
  refine ⟨?_, ?_, ?_⟩
  · intro env req c hsec hver
    simp [vercelRoute, hsec, hver]
  · intro env req c hsig hval
    rcases hsig with hsec | hver
    · simp [vercelRoute, hsec, vercelHandler, hval]
    · by_cases hsec : strTruthy env.vercelWebhookSecret = true
      · simp [vercelRoute, hsec, hver, vercelHandler, hval]
      · simp at hsec
        simp [vercelRoute, hsec, vercelHandler, hval]
  · intro env req c hsig hval hurl
    rcases hsig with hsec | hver
    · simp [vercelRoute, hsec, vercelHandler, hval, hurl]
    · by_cases hsec : strTruthy env.vercelWebhookSecret = true
      · simp [vercelRoute, hsec, hver, vercelHandler, hval, hurl]
      · simp at hsec
        simp [vercelRoute, hsec, vercelHandler, hval, hurl]

/-- Witness for C2: the three ordered outcomes at concrete requests: 401
for a bad signature (even with a non-object payload), 400 for a non-object
payload without a secret, 500 for an object payload with no configured
Discord webhook. -/
theorem C2_witness :
    (vercelRoute ⟨some "https://discord.example/webhook", some "s"⟩
        ⟨some "x", none, Json.obj []⟩ ⟨0, "T"⟩).1.status = 401 ∧
    (vercelRoute ⟨some "https://discord.example/webhook", none⟩
        ⟨some "x", none, Json.str "hi"⟩ ⟨0, "T"⟩).1.status = 400 ∧
    (vercelRoute ⟨none, none⟩ ⟨some "x", none, Json.obj []⟩ ⟨0, "T"⟩).1.status = 500 :=
  ⟨C2_theorem.1 ⟨some "https://discord.example/webhook", some "s"⟩
      ⟨some "x", none, Json.obj []⟩ ⟨0, "T"⟩ (by decide) (by decide),
   C2_theorem.2.1 ⟨some "https://discord.example/webhook", none⟩
      ⟨some "x", none, Json.str "hi"⟩ ⟨0, "T"⟩ (Or.inl (by decide)) (by decide),
   C2_theorem.2.2 ⟨none, none⟩ ⟨some "x", none, Json.obj []⟩ ⟨0, "T"⟩
      (Or.inl (by decide)) (by decide) (by decide)⟩

/-- The status value always computes for a string event type. -/
theorem vercelStatusVal_ok (sp : Option Json) (t : String) :
    ∃ v, vercelStatusVal sp (some (Json.str t)) = Except.ok v := by
  unfold vercelStatusVal
  by_cases h : truthy sp = true
  · simp only [h, if_true]
    exact ⟨_, rfl⟩
  · simp only [h, Bool.false_eq_true, if_false]
    exact ⟨_, rfl⟩

/-- The commit-fields step succeeds when the sha is a string or falsy. -/
theorem vercelCommitFields_ok (o : Option Json) (h : stringOrFalsy o) :
    ∃ cf, vercelCommitFields o = Except.ok cf := by
  rcases h with ⟨s, rfl⟩ | hfal
  · unfold vercelCommitFields
    by_cases ht : truthy (some (Json.str s)) = true
    · simp only [ht, if_true]
      exact ⟨_, rfl⟩
    · simp only [ht, Bool.false_eq_true, if_false]
      exact ⟨[], rfl⟩
  · exact ⟨[], by simp [vercelCommitFields, hfal]⟩

/-- Claim C1: for every well-formed Vercel deployment event whose event
kind is `deployment.ready` or `deployment.succeeded` (the spec's
`state ∈ {ready, succeeded}`) and whose deployment URL is a present
(non-empty string) value, `createVercelEmbed` succeeds with an embed whose
link equals `"https://" ++ deploymentURL` and appends the clickable
deployment-URL field.  Well-formedness: the commit sha, if present, is a
string (or falsy), so formatting cannot throw. -/
theorem C1_theorem (p : Json) (c : Clock) (dep proj : Option Json) (u : String)
    (hdep : jsGet (some p) "deployment" = Except.ok dep)
    (hproj : jsGet (some p) "project" = Except.ok proj)
    (hty : jsGet (some p) "type" = Except.ok (some (Json.str "deployment.ready")) ∨
           jsGet (some p) "type" = Except.ok (some (Json.str "deployment.succeeded")))
    (hurl : jsChain dep "url" = some (Json.str u)) (hu : u ≠ "")
    (hsha : stringOrFalsy (jsChain (jsChain dep "meta") "githubCommitSha")) :
    ∃ e, createVercelEmbed p c = Except.ok e ∧
      e.url = some (Json.str ("https://" ++ u)) ∧
      EmbedField.mk "🔗 Deployment URL"
        (Json.str ("[" ++ u ++ "](https://" ++ u ++ ")")) false ∈ e.fields := by
  obtain ⟨cf, hcf⟩ := vercelCommitFields_ok _ hsha
  simp only [createVercelEmbed, bind, Except.bind]
  rcases hty with hty | hty <;> rw [hdep, hproj, hty] <;> dsimp only
  · obtain ⟨sv, hsv⟩ := vercelStatusVal_ok (jsChain dep "state") "deployment.ready"
    rw [hsv, hcf]
    dsimp only
    refine ⟨_, rfl, ?_, ?_⟩ <;> rw [hurl] <;> simp [truthy, hu, isStr, jsToStr, jsToStrJ]
  · obtain ⟨sv, hsv⟩ := vercelStatusVal_ok (jsChain dep "state") "deployment.succeeded"
    rw [hsv, hcf]
    dsimp only
    refine ⟨_, rfl, ?_, ?_⟩ <;> rw [hurl] <;> simp [truthy, hu, isStr, jsToStr, jsToStrJ]

/-- Witness for C1: the spec's end-to-end scenario payload. -/
theorem C1_witness :
    ∃ e, createVercelEmbed
        (Json.obj [("type", Json.str "deployment.succeeded"),
          ("deployment", Json.obj [("state", Json.str "READY"),
            ("target", Json.str "production"), ("url", Json.str "x.vercel.app")]),
          ("project", Json.obj [("name", Json.str "demo")])]) ⟨0, "T"⟩ = Except.ok e ∧
      e.url = some (Json.str ("https://" ++ "x.vercel.app")) ∧
      EmbedField.mk "🔗 Deployment URL"
        (Json.str ("[" ++ "x.vercel.app" ++ "](https://" ++ "x.vercel.app" ++ ")")) false ∈ e.fields :=
  C1_theorem _ ⟨0, "T"⟩ _ _ "x.vercel.app" rfl rfl (Or.inr rfl) rfl (by decide)
    (Or.inr (by decide))

/-- Counterexample for C6: a comment event whose content is the empty
string (length 0 ≤ 100) renders the preview as `"No content"`, not as the
unmodified content — the truthiness guard `comment.content ?` treats the
empty string as absent. -/
theorem C6_counterexample :
    (hfCommentEmbed (Json.obj [("comment", Json.obj [("content", Json.str "")])]) ⟨0, "T"⟩).map
        (fun e => asString (embedFieldValue e "💬 Comment Preview")) =
      Except.ok (some "No content") ∧
    ("" : String).length ≤ 100 ∧ ("No content" : String) ≠ "" :=
  ⟨rfl, by decide, by decide⟩

/-- Claim C6 (amended): for every Hugging Face comment event whose comment
content is a non-empty string, the comment-preview field equals the
content unmodified when its length is at most 100 characters (in
particular exactly 100), and equals the first 100 characters followed by
`"..."` when longer; the limit 100 is the source's literal.  Empty or
missing content renders as `"No content"`. -/
theorem C6_theorem (p : Json) (c : Clock) (s : String)
    (hcontent : commentContentOf p = Except.ok (some (Json.str s))) (hs : s ≠ "") :
    (hfCommentEmbed p c).map (fun e => embedFieldValue e "💬 Comment Preview") =
      (hfCommentEmbed p c).map (fun _ =>
        some (if s.length > 100 then Json.str (stringTake s 100 ++ "...") else Json.str s)) := by
  cases hc : jsGet (some p) "comment" with
  | error e => simp [commentContentOf, hc, bind, Except.bind] at hcontent
  | ok cv =>
    have hchain : jsChain (some (jsValOr cv (Json.obj []))) "content" = some (Json.str s) := by
      simpa [commentContentOf, hc, bind, Except.bind, pure, Except.pure] using hcontent
    have hprev : commentPreview (jsChain (some (jsValOr cv (Json.obj []))) "content") =
        Except.ok (if s.length > 100 then Json.str (stringTake s 100 ++ "...") else Json.str s) := by
      rw [hchain]
      simp [commentPreview, truthy, hs]
    simp only [hfCommentEmbed, bind, Except.bind]
    cases jsGet (some p) "event" <;> try rfl
    rename_i evt
    dsimp only
    rw [hc]
    dsimp only
    cases jsGet (some p) "discussion" <;> try rfl
    rename_i dv
    dsimp only
    cases jsGet (some p) "repo" <;> try rfl
    rename_i repo
    dsimp only
    cases jsCharAtString (jsValOr (jsChain evt "action") (Json.str "created")) <;> try rfl
    rename_i actionStr
    dsimp only
    rw [hprev]
    dsimp only [Except.map]
    simp [embedFieldValue, pure, Except.pure, List.find?]

/-- Witness for C6: a 150-character comment is cut to its first 100
characters plus the ellipsis marker, and a 100-character comment is
rendered unmodified. -/
theorem C6_witness :
    ((hfCommentEmbed (Json.obj [("comment", Json.obj [("content",
          Json.str ⟨List.replicate 150 'a'⟩)])]) ⟨0, "T"⟩).map
        (fun e => embedFieldValue e "💬 Comment Preview") =
      (hfCommentEmbed (Json.obj [("comment", Json.obj [("content",
          Json.str ⟨List.replicate 150 'a'⟩)])]) ⟨0, "T"⟩).map
        (fun _ => some (if (⟨List.replicate 150 'a'⟩ : String).length > 100 then
          Json.str (stringTake ⟨List.replicate 150 'a'⟩ 100 ++ "...")
          else Json.str ⟨List.replicate 150 'a'⟩))) ∧
    ((hfCommentEmbed (Json.obj [("comment", Json.obj [("content",
          Json.str ⟨List.replicate 100 'b'⟩)])]) ⟨0, "T"⟩).map
        (fun e => embedFieldValue e "💬 Comment Preview") =
      (hfCommentEmbed (Json.obj [("comment", Json.obj [("content",
          Json.str ⟨List.replicate 100 'b'⟩)])]) ⟨0, "T"⟩).map
        (fun _ => some (if (⟨List.replicate 100 'b'⟩ : String).length > 100 then
          Json.str (stringTake ⟨List.replicate 100 'b'⟩ 100 ++ "...")
          else Json.str ⟨List.replicate 100 'b'⟩))) :=
  ⟨C6_theorem _ ⟨0, "T"⟩ _ rfl (by decide),
   C6_theorem _ ⟨0, "T"⟩ _ rfl (by decide)⟩

/-- Plain property access on a truthy object-typed value never throws and
agrees with the optional chain. -/
theorem jsGet_ok (p : Json) (k : String) (htr : truthy (some p) = true)
    (hobj : jsTypeofIsObject p = true) :
    jsGet (some p) k = Except.ok (jsChain (some p) k) := by
  cases p <;> simp_all [jsGet, jsChain, truthy, jsTypeofIsObject]

/-- Claim C7: for every Hugging Face event (structured payload) whose
scope matches no recognised case, the route still produces a notification
via the generic fallback: it responds 200, hands exactly the generic embed
to the sender, and that embed's fields contain the repository name (the
`repo?.name` value when present and non-empty, else the fallbacks) and the
raw event-type string. -/
theorem C7_theorem (env : Env) (req : WebhookRequest) (c : Clock) (url : String)
    (hurl : env.discordWebhookUrl = some url) (hu : url ≠ "")
    (htr : truthy (some req.body) = true) (hobj : jsTypeofIsObject req.body = true)
    (hscope : ∀ s ∈ hfRecognisedScopes, isStr (hfScope req.body) s = false) :
    ∃ e rn, hfGenericRepoName req.body = Except.ok rn ∧
      (hfRoute env req c).1.status = 200 ∧
      (hfRoute env req c).2 = [(url, e)] ∧
      EmbedField.mk "🔔 Event Type" (Json.str (hfEventType req.body)) true ∈ e.fields ∧
      EmbedField.mk "📦 Repository" rn true ∈ e.fields ∧
      (∀ r : String, jsChain (jsChain (some req.body) "repo") "name" = some (Json.str r) →
        r ≠ "" → rn = Json.str r) := by
  have hget : ∀ k, jsGet (some req.body) k = Except.ok (jsChain (some req.body) k) :=
    fun k => jsGet_ok _ k htr hobj
  have h1 := hscope "repo.content" (by decide)
  have h2 := hscope "repo" (by decide)
  have h3 := hscope "repo.config" (by decide)
  have h4 := hscope "discussion" (by decide)
  have h5 := hscope "discussion.comment" (by decide)
  have hgen : hfGenericEmbed req.body (hfEventType req.body) c =
      Except.ok (hfGenericEmbedVal req.body (hfEventType req.body) c) := by
    simp only [hfGenericEmbed, bind, Except.bind, hget]
    rfl
  have hdisp : hfDispatch req.body c =
      Except.ok (hfGenericEmbedVal req.body (hfEventType req.body) c) := by
    simp only [hfDispatch, h1, h2, h3, h4, h5, Bool.false_eq_true, if_false]
    exact hgen
  have hsu : strTruthy (some url) = true := by simp [strTruthy, hu]
  have hval : (truthy (some req.body) && jsTypeofIsObject req.body) = true := by
    simp [htr, hobj]
  have hrepo : hfGenericRepoName req.body =
      Except.ok (jsValOr (jsChain (jsChain (some req.body) "repo") "name")
        (jsValOr (jsChain (jsChain (some req.body) "repository") "name") (Json.str "Unknown"))) := by
    simp only [hfGenericRepoName, bind, Except.bind, hget]
    rfl
  refine ⟨hfGenericEmbedVal req.body (hfEventType req.body) c, _, hrepo, ?_, ?_, ?_, ?_, ?_⟩
  · simp only [hfRoute, hval, hurl, hsu, Bool.not_true, Bool.false_eq_true, if_false, hdisp] <;>
      try rfl
  · simp only [hfRoute, hval, hurl, hsu, Bool.not_true, Bool.false_eq_true, if_false, hdisp] <;>
      try rfl
  · simp [hfGenericEmbedVal]
  · simp [hfGenericEmbedVal]
  · intro r hr hrne
    rw [hr]
    simp [jsValOr, jsOr, truthy, hrne]

/-- Witness for C7: an event with the unrecognised scope `"weird"` is
still turned into a generic notification. -/
theorem C7_witness :
    ∃ e rn, hfGenericRepoName (Json.obj [("repo", Json.obj [("name", Json.str "my-repo")]),
        ("event", Json.obj [("scope", Json.str "weird"), ("action", Json.str "zap")])]) =
          Except.ok rn ∧
      (hfRoute ⟨some "https://discord.example/webhook", none⟩
        ⟨none, none, Json.obj [("repo", Json.obj [("name", Json.str "my-repo")]),
          ("event", Json.obj [("scope", Json.str "weird"), ("action", Json.str "zap")])]⟩
        ⟨0, "T"⟩).1.status = 200 ∧
      (hfRoute ⟨some "https://discord.example/webhook", none⟩
        ⟨none, none, Json.obj [("repo", Json.obj [("name", Json.str "my-repo")]),
          ("event", Json.obj [("scope", Json.str "weird"), ("action", Json.str "zap")])]⟩
        ⟨0, "T"⟩).2 = [("https://discord.example/webhook", e)] ∧
      EmbedField.mk "🔔 Event Type"
        (Json.str (hfEventType (Json.obj [("repo", Json.obj [("name", Json.str "my-repo")]),
          ("event", Json.obj [("scope", Json.str "weird"), ("action", Json.str "zap")])]))) true
        ∈ e.fields ∧
      EmbedField.mk "📦 Repository" rn true ∈ e.fields ∧
      (∀ r : String, jsChain (jsChain (some (Json.obj [("repo", Json.obj [("name", Json.str "my-repo")]),
          ("event", Json.obj [("scope", Json.str "weird"), ("action", Json.str "zap")])])) "repo")
            "name" = some (Json.str r) → r ≠ "" → rn = Json.str r) :=
  C7_theorem ⟨some "https://discord.example/webhook", none⟩
    ⟨none, none, Json.obj [("repo", Json.obj [("name", Json.str "my-repo")]),
      ("event", Json.obj [("scope", Json.str "weird"), ("action", Json.str "zap")])]⟩
    ⟨0, "T"⟩ "https://discord.example/webhook" rfl (by decide) (by decide) (by decide) (by decide)

/-- Counterexample for C8: a structurally valid object payload whose
`deployment.meta.githubCommitSha` is the number `5` makes the formatter
throw (`substring` is not a function on a number); the route catches the
error and responds 500, not 200, with the Discord webhook configured and
no signature secret. -/
theorem C8_counterexample :
    (vercelRoute ⟨some "https://discord.example/webhook", none⟩
        ⟨none, none, Json.obj [("type", Json.str "deployment.created"),
          ("deployment", Json.obj [("meta", Json.obj [("githubCommitSha", Json.num 5)])])]⟩
        ⟨0, "T"⟩).1.status = 500 ∧
    jsTypeofIsObject (Json.obj [("type", Json.str "deployment.created"),
      ("deployment", Json.obj [("meta", Json.obj [("githubCommitSha", Json.num 5)])])]) = true ∧
    (500 : Nat) ≠ 200 :=
  ⟨rfl, rfl, by decide⟩

/-- Claim C8 (amended): for every structurally valid (object) payload with
the chat webhook configured, a passing (or skipped) signature check, and a
dispatched formatter that does not throw, both routes respond 200 with a
JSON body containing the classified event type — regardless of the fetch
outcome of the downstream Discord send (universally quantified). -/
theorem C8_theorem :
    (∀ (env : Env) (req : WebhookRequest) (c : Clock) (fetch : FetchOutcome) (e : Embed),
      (truthy (some req.body) && jsTypeofIsObject req.body) = true →
      strTruthy env.discordWebhookUrl = true →
      (strTruthy env.vercelWebhookSecret = false ∨
        verifyVercelSignature (some (middlewarePayload req)) req.signatureHeader
          env.vercelWebhookSecret = true) →
      vercelDispatch req.body c = Except.ok e →
      (vercelRouteWithSend env req c fetch).1.status = 200 ∧
      bodyLookup (vercelRouteWithSend env req c fetch).1.body "eventType" =
        some (vercelEventType req.body)) ∧
    (∀ (env : Env) (req : WebhookRequest) (c : Clock) (fetch : FetchOutcome) (e : Embed),
      (truthy (some req.body) && jsTypeofIsObject req.body) = true →
      strTruthy env.discordWebhookUrl = true →
      hfDispatch req.body c = Except.ok e →
      (hfRouteWithSend env req c fetch).1.status = 200 ∧
      bodyLookup (hfRouteWithSend env req c fetch).1.body "eventType" =
        some (Json.str (hfEventType req.body))) := by
  constructor
  · intro env req c fetch e hval hurl hsig hdisp
    rcases hsig with hsec | hver
    · constructor <;>
        simp [vercelRouteWithSend, vercelRoute, hsec, vercelHandler, hval, hurl, hdisp,
          bodyLookup, Json.lookup]
    · by_cases hsec : strTruthy env.vercelWebhookSecret = true
      · constructor <;>
          simp [vercelRouteWithSend, vercelRoute, hsec, hver, vercelHandler, hval, hurl, hdisp,
            bodyLookup, Json.lookup]
      · simp only [Bool.not_eq_true] at hsec
        constructor <;>
          simp [vercelRouteWithSend, vercelRoute, hsec, vercelHandler, hval, hurl, hdisp,
            bodyLookup, Json.lookup]
  · intro env req c fetch e hval hurl hdisp
    constructor <;>
      simp [hfRouteWithSend, hfRoute, hval, hurl, hdisp, bodyLookup, Json.lookup]

/-- Witness for C8: the spec's scenario-1 payload is acknowledged 200 with
its event type even when the Discord send fails on the network. -/
theorem C8_witness :
    (vercelRouteWithSend ⟨some "https://discord.example/webhook", none⟩
        ⟨none, none, Json.obj [("type", Json.str "deployment.succeeded"),
          ("deployment", Json.obj [("state", Json.str "READY"),
            ("target", Json.str "production"), ("url", Json.str "x.vercel.app")]),
          ("project", Json.obj [("name", Json.str "demo")])]⟩ ⟨0, "T"⟩
        FetchOutcome.networkError).1.status = 200 ∧
    bodyLookup (vercelRouteWithSend ⟨some "https://discord.example/webhook", none⟩
        ⟨none, none, Json.obj [("type", Json.str "deployment.succeeded"),
          ("deployment", Json.obj [("state", Json.str "READY"),
            ("target", Json.str "production"), ("url", Json.str "x.vercel.app")]),
          ("project", Json.obj [("name", Json.str "demo")])]⟩ ⟨0, "T"⟩
        FetchOutcome.networkError).1.body "eventType" =
      some (vercelEventType (Json.obj [("type", Json.str "deployment.succeeded"),
        ("deployment", Json.obj [("state", Json.str "READY"),
          ("target", Json.str "production"), ("url", Json.str "x.vercel.app")]),
        ("project", Json.obj [("name", Json.str "demo")])])) :=
  C8_theorem.1 ⟨some "https://discord.example/webhook", none⟩
    ⟨none, none, Json.obj [("type", Json.str "deployment.succeeded"),
      ("deployment", Json.obj [("state", Json.str "READY"),
        ("target", Json.str "production"), ("url", Json.str "x.vercel.app")]),
      ("project", Json.obj [("name", Json.str "demo")])]⟩ ⟨0, "T"⟩
    FetchOutcome.networkError _ (by decide) (by decide) (Or.inl (by decide)) rfl

/-- A string with a non-empty left part has non-zero appended length. -/
theorem append_len_ne (a b : String) (h : a.length ≠ 0) : (a ++ b).length ≠ 0 := by
  rw [String.length_append]
  omega

/-- `createVercelEmbed` depends on the clock only through the timestamp. -/
theorem createVercelEmbed_clock (p : Json) (c c' : Clock) :
    (createVercelEmbed p c).map sansTimestamp = (createVercelEmbed p c').map sansTimestamp := by
  simp only [createVercelEmbed, bind, Except.bind, Except.map]
  cases jsGet (some p) "deployment" <;> try rfl
  rename_i dep
  dsimp only
  cases jsGet (some p) "project" <;> try rfl
  rename_i proj
  dsimp only
  cases jsGet (some p) "type" <;> try rfl
  rename_i ty
  dsimp only
  cases vercelStatusVal (jsChain dep "state") ty <;> try rfl
  rename_i sv
  dsimp only
  cases vercelCommitFields (jsChain (jsChain dep "meta") "githubCommitSha") <;> rfl

/-- `createVercelEmbed` results are well formed. -/
theorem createVercelEmbed_wf (p : Json) (c : Clock) : embedWF c (createVercelEmbed p c) := by
  simp only [createVercelEmbed, bind, Except.bind]
  cases jsGet (some p) "deployment" <;> try trivial
  rename_i dep
  dsimp only
  cases jsGet (some p) "project" <;> try trivial
  rename_i proj
  dsimp only
  cases jsGet (some p) "type" <;> try trivial
  rename_i ty
  dsimp only
  cases vercelStatusVal (jsChain dep "state") ty <;> try trivial
  rename_i sv
  dsimp only
  cases vercelCommitFields (jsChain (jsChain dep "meta") "githubCommitSha") <;> try trivial
  rename_i cf
  dsimp only
  refine ⟨?_, rfl⟩
  repeat' split
  all_goals exact append_ne_empty _ _ (append_len_ne _ _ (append_len_ne _ _
    (append_len_ne _ _ (by decide))))

/-- `createHuggingFaceEmbed` depends on the clock only through the
timestamp and the `📅 Time` field. -/
theorem createHuggingFaceEmbed_clock (p : Json) (c c' : Clock) :
    (createHuggingFaceEmbed p c).map sansTimeFields =
      (createHuggingFaceEmbed p c').map sansTimeFields := by
  simp only [createHuggingFaceEmbed, bind, Except.bind, Except.map]
  cases jsGet (some p) "repo" <;> try rfl
  rename_i repo
  dsimp only
  cases jsGet (some p) "updatedRefs" <;> try rfl
  rename_i urefs
  dsimp only
  cases asArray (jsValOr urefs (Json.arr [])) <;> try rfl
  rename_i xs
  dsimp only
  cases findMainRef xs <;> try rfl
  rename_i found
  dsimp only
  cases jsSliceChain (jsOr (jsChain (jsOr found (xs.get? 0)) "newSha")
      (jsChain repo "headSha")) 7 <;> try rfl
  rename_i sl
  dsimp only
  cases jsCharAtString (jsValOr (jsChain repo "type") (Json.str "repository")) <;> try rfl
  rename_i ts
  dsimp only
  by_cases hlen : xs.length > 0 <;> simp only [hlen, if_true, if_false, reduceIte] <;> try rfl
  cases refInfoLines xs <;> try rfl

/-- `createHuggingFaceEmbed` results are well formed. -/
theorem createHuggingFaceEmbed_wf (p : Json) (c : Clock) :
    embedWF c (createHuggingFaceEmbed p c) := by
  simp only [createHuggingFaceEmbed, bind, Except.bind]
  cases jsGet (some p) "repo" <;> try trivial
  rename_i repo
  dsimp only
  cases jsGet (some p) "updatedRefs" <;> try trivial
  rename_i urefs
  dsimp only
  cases asArray (jsValOr urefs (Json.arr [])) <;> try trivial
  rename_i xs
  dsimp only
  cases findMainRef xs <;> try trivial
  rename_i found
  dsimp only
  cases jsSliceChain (jsOr (jsChain (jsOr found (xs.get? 0)) "newSha")
      (jsChain repo "headSha")) 7 <;> try trivial
  rename_i sl
  dsimp only
  cases jsCharAtString (jsValOr (jsChain repo "type") (Json.str "repository")) <;> try trivial
  rename_i ts
  dsimp only
  by_cases hlen : xs.length > 0 <;> simp only [hlen, if_true, if_false, reduceIte] <;>
    try exact ⟨append_ne_empty _ _ (by decide), rfl⟩
  cases refInfoLines xs <;> try trivial
  exact ⟨append_ne_empty _ _ (by decide), rfl⟩

/-- `hfRepoEmbed` depends on the clock only through the timestamp. -/
theorem hfRepoEmbed_clock (p : Json) (c c' : Clock) :
    (hfRepoEmbed p c).map sansTimestamp = (hfRepoEmbed p c').map sansTimestamp := by
  simp only [hfRepoEmbed, bind, Except.bind, Except.map]
  cases jsGet (some p) "event" <;> try rfl
  rename_i evt
  dsimp only
  cases jsGet (some p) "repo" <;> try rfl
  rename_i repo
  dsimp only
  cases jsCharAtString (jsValOr (jsChain evt "action") (Json.str "updated")) <;> rfl

/-- `hfRepoEmbed` results are well formed. -/
theorem hfRepoEmbed_wf (p : Json) (c : Clock) : embedWF c (hfRepoEmbed p c) := by
  simp only [hfRepoEmbed, bind, Except.bind]
  cases jsGet (some p) "event" <;> try trivial
  rename_i evt
  dsimp only
  cases jsGet (some p) "repo" <;> try trivial
  rename_i repo
  dsimp only
  cases jsCharAtString (jsValOr (jsChain evt "action") (Json.str "updated")) <;> try trivial
  exact ⟨append_ne_empty _ _ (by decide), rfl⟩

/-- `hfConfigEmbed` depends on the clock only through the timestamp. -/
theorem hfConfigEmbed_clock (p : Json) (c c' : Clock) :
    (hfConfigEmbed p c).map sansTimestamp = (hfConfigEmbed p c').map sansTimestamp := by
  simp only [hfConfigEmbed, bind, Except.bind, Except.map]
  cases jsGet (some p) "repo" <;> try rfl
  rename_i repo
  dsimp only
  cases jsGet (some p) "updatedConfig" <;> rfl

/-- `hfConfigEmbed` results are well formed. -/
theorem hfConfigEmbed_wf (p : Json) (c : Clock) : embedWF c (hfConfigEmbed p c) := by
  simp only [hfConfigEmbed, bind, Except.bind]
  cases jsGet (some p) "repo" <;> try trivial
  rename_i repo
  dsimp only
  cases jsGet (some p) "updatedConfig" <;> try trivial
  refine ⟨?_, rfl⟩
  show ("⚙️ Configuration Updated" : String) ≠ ""
  decide

/-- `hfDiscussionEmbed` depends on the clock only through the timestamp. -/
theorem hfDiscussionEmbed_clock (p : Json) (c c' : Clock) :
    (hfDiscussionEmbed p c).map sansTimestamp = (hfDiscussionEmbed p c').map sansTimestamp := by
  simp only [hfDiscussionEmbed, bind, Except.bind, Except.map]
  cases jsGet (some p) "event" <;> try rfl
  rename_i evt
  dsimp only
  cases jsGet (some p) "discussion" <;> try rfl
  rename_i dv
  dsimp only
  cases jsGet (some p) "repo" <;> try rfl
  rename_i repo
  dsimp only
  cases jsCharAtString (jsValOr (jsChain evt "action") (Json.str "updated")) <;> rfl

/-- `hfDiscussionEmbed` results are well formed. -/
theorem hfDiscussionEmbed_wf (p : Json) (c : Clock) : embedWF c (hfDiscussionEmbed p c) := by
  simp only [hfDiscussionEmbed, bind, Except.bind]
  cases jsGet (some p) "event" <;> try trivial
  rename_i evt
  dsimp only
  cases jsGet (some p) "discussion" <;> try trivial
  rename_i dv
  dsimp only
  cases jsGet (some p) "repo" <;> try trivial
  rename_i repo
  dsimp only
  cases jsCharAtString (jsValOr (jsChain evt "action") (Json.str "updated")) <;> try trivial
  refine ⟨?_, rfl⟩
  exact append_ne_empty _ _ (append_len_ne _ _ (append_len_ne _ _ (by decide)))

/-- `hfCommentEmbed` depends on the clock only through the timestamp. -/
theorem hfCommentEmbed_clock (p : Json) (c c' : Clock) :
    (hfCommentEmbed p c).map sansTimestamp = (hfCommentEmbed p c').map sansTimestamp := by
  simp only [hfCommentEmbed, bind, Except.bind, Except.map]
  cases jsGet (some p) "event" <;> try rfl
  rename_i evt
  dsimp only
  cases jsGet (some p) "comment" <;> try rfl
  rename_i cv
  dsimp only
  cases jsGet (some p) "discussion" <;> try rfl
  rename_i dv
  dsimp only
  cases jsGet (some p) "repo" <;> try rfl
  rename_i repo
  dsimp only
  cases jsCharAtString (jsValOr (jsChain evt "action") (Json.str "created")) <;> try rfl
  rename_i as
  dsimp only
  cases commentPreview (jsChain (some (jsValOr cv (Json.obj []))) "content") <;> rfl

/-- `hfCommentEmbed` results are well formed. -/
theorem hfCommentEmbed_wf (p : Json) (c : Clock) : embedWF c (hfCommentEmbed p c) := by
  simp only [hfCommentEmbed, bind, Except.bind]
  cases jsGet (some p) "event" <;> try trivial
  rename_i evt
  dsimp only
  cases jsGet (some p) "comment" <;> try trivial
  rename_i cv
  dsimp only
  cases jsGet (some p) "discussion" <;> try trivial
  rename_i dv
  dsimp only
  cases jsGet (some p) "repo" <;> try trivial
  rename_i repo
  dsimp only
  cases jsCharAtString (jsValOr (jsChain evt "action") (Json.str "created")) <;> try trivial
  rename_i as
  dsimp only
  cases commentPreview (jsChain (some (jsValOr cv (Json.obj []))) "content") <;> try trivial
  exact ⟨append_ne_empty _ _ (by decide), rfl⟩

/-- `hfGenericEmbed` depends on the clock only through the timestamp. -/
theorem hfGenericEmbed_clock (p : Json) (et : String) (c c' : Clock) :
    (hfGenericEmbed p et c).map sansTimestamp = (hfGenericEmbed p et c').map sansTimestamp := by
  simp only [hfGenericEmbed, bind, Except.bind, Except.map]
  cases jsGet (some p) "repo" <;> try rfl
  rename_i repo
  dsimp only
  cases jsGet (some p) "repository" <;> rfl

/-- `hfGenericEmbed` results are well formed. -/
theorem hfGenericEmbed_wf (p : Json) (et : String) (c : Clock) :
    embedWF c (hfGenericEmbed p et c) := by
  simp only [hfGenericEmbed, bind, Except.bind]
  cases jsGet (some p) "repo" <;> try trivial
  rename_i repo
  dsimp only
  cases jsGet (some p) "repository" <;> try trivial
  exact ⟨append_ne_empty _ _ (by decide), rfl⟩

/-- `vercelGenericEmbed` depends on the clock only through the timestamp. -/
theorem vercelGenericEmbed_clock (p : Json) (etj : Json) (c c' : Clock) :
    (vercelGenericEmbed p etj c).map sansTimestamp =
      (vercelGenericEmbed p etj c').map sansTimestamp := by
  simp only [vercelGenericEmbed, bind, Except.bind, Except.map]
  cases jsGet (some p) "project" <;> try rfl
  rename_i proj
  dsimp only
  cases jsGet (some p) "deployment" <;> rfl

/-- `vercelGenericEmbed` results are well formed. -/
theorem vercelGenericEmbed_wf (p : Json) (etj : Json) (c : Clock) :
    embedWF c (vercelGenericEmbed p etj c) := by
  simp only [vercelGenericEmbed, bind, Except.bind]
  cases jsGet (some p) "project" <;> try trivial
  rename_i proj
  dsimp only
  cases jsGet (some p) "deployment" <;> try trivial
  exact ⟨append_ne_empty _ _ (by decide), rfl⟩

/-- Counterexample for C3: formatting the same (empty-object) Hugging Face
push payload at two instants one second apart — with the very same ISO
timestamp string — yields different content: the `📅 Time` field value
(a Discord timestamp derived from `Date.now()`) differs, so the contents
are not identical except for the timestamp field. -/
theorem C3_counterexample :
    (createHuggingFaceEmbed (Json.obj []) ⟨0, "T"⟩).map
        (fun e => asString (embedFieldValue e "📅 Time")) = Except.ok (some "<t:0:F>") ∧
    (createHuggingFaceEmbed (Json.obj []) ⟨1000, "T"⟩).map
        (fun e => asString (embedFieldValue e "📅 Time")) = Except.ok (some "<t:1:F>") ∧
    ("<t:0:F>" : String) ≠ "<t:1:F>" :=
  ⟨rfl, rfl, by decide⟩

/-- Claim C3 (amended): formatting is deterministic given the payload and
the clock; for every provider path, formatting the same payload at two
instants yields identical NotificationMessage content except for the
timestamp field and — for the Hugging Face push formatter only — the
`📅 Time` field, whose value encodes the formatting instant. -/
theorem C3_theorem (p : Json) (et : String) (etj : Json) (c c' : Clock) :
    (createVercelEmbed p c).map sansTimestamp = (createVercelEmbed p c').map sansTimestamp ∧
    (createHuggingFaceEmbed p c).map sansTimeFields =
      (createHuggingFaceEmbed p c').map sansTimeFields ∧
    (hfRepoEmbed p c).map sansTimestamp = (hfRepoEmbed p c').map sansTimestamp ∧
    (hfConfigEmbed p c).map sansTimestamp = (hfConfigEmbed p c').map sansTimestamp ∧
    (hfDiscussionEmbed p c).map sansTimestamp = (hfDiscussionEmbed p c').map sansTimestamp ∧
    (hfCommentEmbed p c).map sansTimestamp = (hfCommentEmbed p c').map sansTimestamp ∧
    (hfGenericEmbed p et c).map sansTimestamp = (hfGenericEmbed p et c').map sansTimestamp ∧
    (vercelGenericEmbed p etj c).map sansTimestamp =
      (vercelGenericEmbed p etj c').map sansTimestamp :=
  ⟨createVercelEmbed_clock p c c', createHuggingFaceEmbed_clock p c c',
   hfRepoEmbed_clock p c c', hfConfigEmbed_clock p c c', hfDiscussionEmbed_clock p c c',
   hfCommentEmbed_clock p c c', hfGenericEmbed_clock p et c c',
   vercelGenericEmbed_clock p etj c c'⟩

/-- Claim C10: every embed constructed by any formatting path — the Vercel
deployment formatter, the Hugging Face push formatter, the
repo/config/discussion/comment handlers, and both generic fallbacks — has
a non-empty title and its timestamp set to the formatting-time clock, for
every input payload (including payloads missing the referenced
sub-objects); the integer colour and the name/value/inline shape of every
fields entry hold by construction of the `Embed` and `EmbedField` record
types. -/
theorem C10_theorem (p : Json) (c : Clock) (et : String) (etj : Json) :
    embedWF c (createVercelEmbed p c) ∧ embedWF c (createHuggingFaceEmbed p c) ∧
    embedWF c (hfRepoEmbed p c) ∧ embedWF c (hfConfigEmbed p c) ∧
    embedWF c (hfDiscussionEmbed p c) ∧ embedWF c (hfCommentEmbed p c) ∧
    embedWF c (hfGenericEmbed p et c) ∧ embedWF c (vercelGenericEmbed p etj c) :=
  ⟨createVercelEmbed_wf p c, createHuggingFaceEmbed_wf p c, hfRepoEmbed_wf p c,
   hfConfigEmbed_wf p c, hfDiscussionEmbed_wf p c, hfCommentEmbed_wf p c,
   hfGenericEmbed_wf p et c, vercelGenericEmbed_wf p etj c⟩
